import Mathlib

/-!
# bento-go: session, dispatch and error classification

A shallow embedding of `bento.go` (package `bento`) and the properties of its
request-dispatch layer.

Conventions of the embedding.

* Go `string` and `[]byte` values are Lean `String`s, so the texts covered are
  the ones that are valid UTF-8.
* A Go `(value, error)` result is an `Except GoError value`.
* Effects of a transport function are explicit: a transport takes the state of
  the outside world and returns the new one.
* A call that dereferences a nil pointer has no result: `none`.
* `encoding/json` is not part of the repository; the part of its behaviour the
  client relies on is modelled in the first two sections.
-/

namespace Bento

/-! ## encoding/json: documents and the scanner -/

/-- A JSON document. A number keeps its literal; an object keeps its members
in document order, repeated names included. -/
inductive JSON where
  | null
  | bool (b : Bool)
  | num (lit : String)
  | str (s : String)
  | arr (elems : List JSON)
  | obj (members : List (String × JSON))

/-- Lexical tokens of a JSON text. -/
inductive Token where
  | beginObject
  | endObject
  | beginArray
  | endArray
  | colon
  | comma
  | string (raw : List Char)
  | number (lit : List Char)
  | word (w : List Char)

/-- States of the scanner between and inside tokens. The accumulators hold the
characters of the current token, last one first. -/
inductive LexState where
  | ready
  | inString (acc : List Char)
  | inStringEsc (acc : List Char)
  | inStringEscU (more : Nat) (acc : List Char)
  | inNumber (acc : List Char)
  | inWord (acc : List Char)

/-- Space, tab, carriage return, line feed. -/
def isSpace (c : Char) : Bool :=
  c.toNat == 32 || c.toNat == 9 || c.toNat == 13 || c.toNat == 10

def isDigit (c : Char) : Bool :=
  48 ≤ c.toNat && c.toNat ≤ 57

def isHex (c : Char) : Bool :=
  isDigit c || (97 ≤ c.toNat && c.toNat ≤ 102) || (65 ≤ c.toNat && c.toNat ≤ 70)

def isLower (c : Char) : Bool :=
  97 ≤ c.toNat && c.toNat ≤ 122

/-- Characters a number literal is made of: digits, sign, point, exponent mark. -/
def isNumberChar (c : Char) : Bool :=
  isDigit c || c.toNat == 45 || c.toNat == 43 || c.toNat == 46 || c.toNat == 101 || c.toNat == 69

/-- Characters allowed after a backslash, `u` apart: `" \ / b f n r t`. -/
def isEscape (c : Char) : Bool :=
  c.toNat == 34 || c.toNat == 92 || c.toNat == 47 || c.toNat == 98 || c.toNat == 102 ||
    c.toNat == 110 || c.toNat == 114 || c.toNat == 116

/-- The scanner at the start of a token: the token a character completes by
itself, if any, and the state it leads to. `none` is a syntax error. -/
def lexStart (c : Char) : Option (Option Token × LexState) :=
  if isSpace c then some (none, .ready)
  else if c.toNat == 123 then some (some .beginObject, .ready)
  else if c.toNat == 125 then some (some .endObject, .ready)
  else if c.toNat == 91 then some (some .beginArray, .ready)
  else if c.toNat == 93 then some (some .endArray, .ready)
  else if c.toNat == 58 then some (some .colon, .ready)
  else if c.toNat == 44 then some (some .comma, .ready)
  else if c.toNat == 34 then some (none, .inString [])
  else if isDigit c || c.toNat == 45 then some (none, .inNumber [c])
  else if isLower c then some (none, .inWord [c])
  else none

/-- Put a token, when there is one, in front of the tokens that follow. -/
def emit (t : Option Token) (rest : Option (List Token)) : Option (List Token) :=
  match t, rest with
  | _, none => none
  | none, some ts => some ts
  | some t, some ts => some (t :: ts)

/-- The scanner: one step per character, as `scanner.step` of encoding/json. -/
def lex : LexState → List Char → Option (List Token)
  | .ready, [] => some []
  | .inNumber acc, [] => some [.number acc.reverse]
  | .inWord acc, [] => some [.word acc.reverse]
  | _, [] => none
  | .ready, c :: cs =>
    match lexStart c with
    | none => none
    | some (t, st) => emit t (lex st cs)
  | .inString acc, c :: cs =>
    if c.toNat == 34 then emit (some (.string acc.reverse)) (lex .ready cs)
    else if c.toNat == 92 then lex (.inStringEsc (c :: acc)) cs
    else if c.toNat < 32 then none
    else lex (.inString (c :: acc)) cs
  | .inStringEsc acc, c :: cs =>
    if isEscape c then lex (.inString (c :: acc)) cs
    else if c.toNat == 117 then lex (.inStringEscU 4 (c :: acc)) cs
    else none
  | .inStringEscU more acc, c :: cs =>
    if isHex c then
      if more ≤ 1 then lex (.inString (c :: acc)) cs
      else lex (.inStringEscU (more - 1) (c :: acc)) cs
    else none
  | .inNumber acc, c :: cs =>
    if isNumberChar c then lex (.inNumber (c :: acc)) cs
    else
      match lexStart c with
      | none => none
      | some (t, st) => emit (some (.number acc.reverse)) (emit t (lex st cs))
  | .inWord acc, c :: cs =>
    if isLower c then lex (.inWord (c :: acc)) cs
    else
      match lexStart c with
      | none => none
      | some (t, st) => emit (some (.word acc.reverse)) (emit t (lex st cs))

/-- Number grammar, after the integer part: an optional exponent, then the end. -/
def validExp : List Char → Bool
  | [] => true
  | c :: rest =>
    if c.toNat == 101 || c.toNat == 69 then
      match rest with
      | [] => false
      | s :: more =>
        if s.toNat == 43 || s.toNat == 45 then
          !more.isEmpty && more.all isDigit
        else rest.all isDigit
    else false

/-- Number grammar, after the integer part: an optional fraction, then `validExp`. -/
def validFrac : List Char → Bool
  | [] => true
  | c :: rest =>
    if c.toNat == 46 then
      match rest with
      | [] => false
      | d :: more => isDigit d && validExp (more.dropWhile isDigit)
    else validExp (c :: rest)

/-- Number grammar, after the sign: `0` or a digit `1-9` followed by digits. -/
def validInt : List Char → Bool
  | [] => false
  | c :: rest =>
    if c.toNat == 48 then validFrac rest
    else if isDigit c then validFrac (rest.dropWhile isDigit)
    else false

/-- The JSON number grammar: `-? (0 | [1-9][0-9]*) (. [0-9]+)? ([eE] [+-]? [0-9]+)?`. -/
def validNumber : List Char → Bool
  | [] => false
  | c :: rest => if c.toNat == 45 then validInt rest else validInt (c :: rest)

def hexVal (c : Char) : Nat :=
  if isDigit c then c.toNat - 48
  else if 97 ≤ c.toNat then c.toNat - 87
  else c.toNat - 55

/-- The value of the four hex digits at the head of the text (`getu4` without
its leading backslash and `u`). -/
def hex4 (cs : List Char) : Nat :=
  (cs.take 4).foldl (fun n c => 16 * n + hexVal c) 0

/-- The value of an escape `\uXXXX` at the head of the text, `none` when the
text does not start with one (`getu4`). -/
def getu4 (cs : List Char) : Option Nat :=
  match cs with
  | b :: u :: rest =>
    if b.toNat == 92 && u.toNat == 117 && rest.length ≥ 4 && (rest.take 4).all isHex then
      some (hex4 rest)
    else none
  | _ => none

/-- The character a one-letter escape stands for. -/
def escapeChar (c : Char) : Char :=
  if c.toNat == 98 then Char.ofNat 8
  else if c.toNat == 102 then Char.ofNat 12
  else if c.toNat == 110 then Char.ofNat 10
  else if c.toNat == 114 then Char.ofNat 13
  else if c.toNat == 116 then Char.ofNat 9
  else c

/-- The replacement character U+FFFD. -/
def replacementChar : Char := Char.ofNat 65533

/-- The text of a string literal once its escapes are resolved (`unquote`).
`skip` counts the characters of an escape already consumed. A surrogate that is
not the first half of a valid pair becomes U+FFFD. -/
def unquoteFrom : Nat → List Char → List Char
  | _, [] => []
  | skip + 1, _ :: cs => unquoteFrom skip cs
  | 0, c :: cs =>
    if c.toNat == 92 then
      match cs with
      | [] => []
      | e :: rest =>
        if e.toNat == 117 then
          let r := hex4 rest
          if 55296 ≤ r && r < 57344 then
            match getu4 (rest.drop 4) with
            | some r1 =>
              if r < 56320 && 56320 ≤ r1 && r1 < 57344 then
                Char.ofNat ((r - 55296) * 1024 + (r1 - 56320) + 65536) :: unquoteFrom 11 cs
              else replacementChar :: unquoteFrom 5 cs
            | none => replacementChar :: unquoteFrom 5 cs
          else Char.ofNat r :: unquoteFrom 5 cs
        else escapeChar e :: unquoteFrom 1 cs
    else c :: unquoteFrom 0 cs

def unquote (raw : List Char) : String :=
  String.mk (unquoteFrom 0 raw)

/-- The value of a token that is a value by itself. `none` for the other
tokens and for a malformed number or word. -/
def scalar : Token → Option JSON
  | .string raw => some (.str (unquote raw))
  | .number lit => if validNumber lit then some (.num (String.mk lit)) else none
  | .word w =>
    if w == "true".toList then some (.bool true)
    else if w == "false".toList then some (.bool false)
    else if w == "null".toList then some .null
    else none
  | _ => none

/-- An array or object whose closing bracket has not been read. Elements and
members are kept last one first; `key` is the member name awaiting its value. -/
inductive Frame where
  | array (elems : List JSON)
  | object (members : List (String × JSON)) (key : Option String)

/-- What the parser expects next. -/
inductive Mode where
  | value
  | first
  | key
  | colon
  | after
  | done (v : JSON)

structure ParseState where
  stack : List Frame
  mode : Mode

/-- A complete value goes where the enclosing frame wants it. -/
def place (v : JSON) : List Frame → Option ParseState
  | [] => some ⟨[], .done v⟩
  | .array es :: rest => some ⟨.array (v :: es) :: rest, .after⟩
  | .object ms (some k) :: rest => some ⟨.object ((k, v) :: ms) none :: rest, .after⟩
  | .object _ none :: _ => none

/-- The deepest nesting of arrays and objects the scanner accepts
(`maxNestingDepth` of encoding/json, since Go 1.15). -/
def maxNestingDepth : Nat := 10000

/-- A token where a value must start. An array or object that would be nested
deeper than `maxNestingDepth` is a syntax error. -/
def beginValue (stack : List Frame) : Token → Option ParseState
  | .beginArray =>
    if stack.length < maxNestingDepth then some ⟨.array [] :: stack, .first⟩ else none
  | .beginObject =>
    if stack.length < maxNestingDepth then some ⟨.object [] none :: stack, .first⟩ else none
  | t =>
    match scalar t with
    | some v => place v stack
    | none => none

/-- One token of input. `none` is a syntax error. -/
def parseStep (st : ParseState) (t : Token) : Option ParseState :=
  match st.mode, st.stack, t with
  | .value, stack, t => beginValue stack t
  | .first, .array _ :: rest, .endArray => place (.arr []) rest
  | .first, .array es :: rest, t => beginValue (.array es :: rest) t
  | .first, .object _ _ :: rest, .endObject => place (.obj []) rest
  | .first, .object ms _ :: rest, .string raw =>
    some ⟨.object ms (some (unquote raw)) :: rest, .colon⟩
  | .key, .object ms _ :: rest, .string raw =>
    some ⟨.object ms (some (unquote raw)) :: rest, .colon⟩
  | .colon, stack, .colon => some ⟨stack, .value⟩
  | .after, .array es :: rest, .comma => some ⟨.array es :: rest, .value⟩
  | .after, .array es :: rest, .endArray => place (.arr es.reverse) rest
  | .after, .object ms k :: rest, .comma => some ⟨.object ms k :: rest, .key⟩
  | .after, .object ms _ :: rest, .endObject => place (.obj ms.reverse) rest
  | _, _, _ => none

def parseTokens : ParseState → List Token → Option ParseState
  | st, [] => some st
  | st, t :: ts =>
    match parseStep st t with
    | none => none
    | some st1 => parseTokens st1 ts

/-- The document a text denotes, `none` when the text is not valid JSON. -/
def parse (data : String) : Option JSON :=
  match lex .ready data.toList with
  | none => none
  | some ts =>
    match parseTokens ⟨[], .value⟩ ts with
    | some ⟨_, .done v⟩ => some v
    | _ => none

/-! ## encoding/json: decoding into Go values -/

namespace json

/-- The errors of `Unmarshal`: a `SyntaxError` (`malformed`), or an `UnmarshalTypeError` with
the description of the JSON value and the name of the Go type it did not fit. -/
inductive Error where
  | malformed
  | type (value : String) (goType : String)
deriving DecidableEq, Repr

/-- A decoder of JSON values into Go values of type `α`: from the document and
the value the target holds, the value it holds afterwards, and the error the
decoder saved, if any. A decoder that saves an error goes on decoding. -/
abbrev Dec (α : Type) := JSON → α → α × Option Error

/-- How `UnmarshalTypeError.Value` describes a document. -/
def describe : JSON → String
  | .null => "null"
  | .bool _ => "bool"
  | .num _ => "number"
  | .str _ => "string"
  | .arr _ => "array"
  | .obj _ => "object"

/-- The first of two saved errors. -/
def first (e1 e2 : Option Error) : Option Error :=
  match e1 with
  | some e => some e
  | none => e2

/-- Decoding into a Go `string`. A null leaves the target as it is. -/
def decString (goType : String) : Dec String
  | .null, x => (x, none)
  | .str s, _ => (s, none)
  | j, x => (x, some (.type (describe j) goType))

/-- Decoding into a Go `bool`. -/
def decBool : Dec Bool
  | .null, x => (x, none)
  | .bool b, _ => (b, none)
  | j, x => (x, some (.type (describe j) "bool"))

/-- The number a run of decimal digits denotes; `none` if the run is empty or
has another character. -/
def parseDigits (cs : List Char) : Option Nat :=
  if !cs.isEmpty && cs.all isDigit then
    some (cs.foldl (fun n c => 10 * n + (c.toNat - 48)) 0)
  else none

/-- The function `strconv.ParseInt(lit, 10, 64)` on a JSON number literal: the
literal must be an optional minus sign and digits, and denote a number from
`-2^63` to `2^63 - 1`. -/
def parseInt64 (lit : String) : Option Int :=
  match lit.toList with
  | [] => none
  | c :: rest =>
    if c.toNat == 45 then
      match parseDigits rest with
      | some n => if n ≤ 2 ^ 63 then some (-(n : Int)) else none
      | none => none
    else
      match parseDigits (c :: rest) with
      | some n => if n < 2 ^ 63 then some (n : Int) else none
      | none => none

/-- Decoding into a Go `int64` (and `int`, taken to be 64 bits wide). -/
def decInt (goType : String) : Dec Int
  | .null, x => (x, none)
  | .num lit, x =>
    match parseInt64 lit with
    | some n => (n, none)
    | none => (x, some (.type ("number " ++ lit) goType))
  | j, x => (x, some (.type (describe j) goType))

end json

/-- A Go slice: its elements, and what the rest of its backing array holds
from earlier use (`spare`), the elements a decoding into the slice left behind
when it made the slice shorter. Of a slice that was never made shorter, and of
a nil slice, `spare` is empty. A nil slice and an empty one are both `{}`. -/
structure Slice (α : Type) where
  elems : List α := []
  spare : List α := []
deriving DecidableEq, Repr

/-- A Go `float64`, by the three fields of its IEEE 754 binary64
representation: the sign bit, the biased exponent (11 bits) and the fraction
(52 bits). The zero value is `+0`. -/
structure Float64 where
  sign : Bool := false
  exponent : Nat := 0
  fraction : Nat := 0
deriving DecidableEq, Repr

namespace json

/-- The exponent part of a number literal, from its mark on: the value. -/
def parseExp (cs : List Char) : Option Int :=
  match cs with
  | [] => some 0
  | _ :: rest =>
    match rest with
    | [] => none
    | s :: more =>
      if s.toNat == 45 then (parseDigits more).map fun n => -(n : Int)
      else if s.toNat == 43 then (parseDigits more).map fun n => (n : Int)
      else (parseDigits rest).map fun n => (n : Int)

/-- The decimal a (valid) number literal without its sign denotes: the digits
of its integer and fraction parts as one number `m`, and the power of ten `e`
it is to be multiplied by. -/
def parseDecimal (cs : List Char) : Option (Nat × Int) :=
  let ip := cs.takeWhile isDigit
  let r := cs.dropWhile isDigit
  let fp := match r with
    | [] => []
    | d :: more => if d.toNat == 46 then more.takeWhile isDigit else []
  let ep := match r with
    | [] => []
    | d :: more => if d.toNat == 46 then more.dropWhile isDigit else r
  match parseDigits (ip ++ fp), parseExp ep with
  | some m, some e => some (m, e - fp.length)
  | _, _ => none

/-- Whether `2 ^ k ≤ n / d`, for `d` positive. -/
def pow2Le (k : Int) (n d : Nat) : Bool :=
  if 0 ≤ k then d * 2 ^ k.toNat ≤ n else d ≤ n * 2 ^ (-k).toNat

/-- Bisection for `floorLog2`: the exponents are `lo - 1200` and `hi - 1200`,
the first one not above the logarithm unless it is the least, the second one
above it. -/
def searchLog2 : Nat → Nat → Nat → Nat → Nat → Int
  | 0, lo, _, _, _ => (lo : Int) - 1200
  | fuel + 1, lo, hi, n, d =>
    if hi ≤ lo + 1 then (lo : Int) - 1200
    else if pow2Le (((lo + hi) / 2 : Nat) - 1200) n d then searchLog2 fuel ((lo + hi) / 2) hi n d
    else searchLog2 fuel lo ((lo + hi) / 2) n d

/-- The integer part of the binary logarithm of `n / d`, for `n` and `d`
positive, kept between -1200 and 1100: beyond these the number rounds to zero
or is out of the range of binary64 whatever the exact logarithm is. -/
def floorLog2 (n d : Nat) : Int :=
  if pow2Le 1100 n d then 1100 else searchLog2 12 0 2300 n d

/-- The integer nearest to `n / d`, the even one of the two when `n / d` is
halfway between them. -/
def roundHalfEven (n d : Nat) : Nat :=
  let q := n / d
  let r := n % d
  if d < 2 * r || (2 * r == d && q % 2 == 1) then q + 1 else q

/-- The binary64 nearest to `n / d` (`d` positive), with the given sign: round
to nearest, ties to even, as `strconv.ParseFloat` rounds. A number too small
becomes a subnormal or zero. `none`: the number rounds beyond the largest
finite binary64. -/
def roundFloat64 (sign : Bool) (n d : Nat) : Option Float64 :=
  if n == 0 then some ⟨sign, 0, 0⟩
  else
    let k := floorLog2 n d
    let u : Int := if k - 52 < -1074 then -1074 else k - 52
    let m := if 0 ≤ u then roundHalfEven n (d * 2 ^ u.toNat)
      else roundHalfEven (n * 2 ^ (-u).toNat) d
    let m1 := if m == 2 ^ 53 then 2 ^ 52 else m
    let u1 : Int := if m == 2 ^ 53 then u + 1 else u
    if m1 < 2 ^ 52 then some ⟨sign, 0, m1⟩
    else if 2047 ≤ u1 + 1075 then none
    else some ⟨sign, (u1 + 1075).toNat, m1 - 2 ^ 52⟩

/-- The function `strconv.ParseFloat(lit, 64)` on a JSON number literal: the
binary64 nearest to the number; it fails when the number is out of range. -/
def parseFloat64 (lit : String) : Option Float64 :=
  let sign := match lit.toList with
    | [] => false
    | c :: _ => c.toNat == 45
  let d := match lit.toList with
    | [] => none
    | c :: rest => if c.toNat == 45 then parseDecimal rest else parseDecimal (c :: rest)
  match d with
  | some (m, e) =>
    if 0 ≤ e then roundFloat64 sign (m * 10 ^ e.toNat) 1
    else roundFloat64 sign m (10 ^ (-e).toNat)
  | none => none

/-- Decoding into a Go `float64`. -/
def decFloat64 : Dec Float64
  | .null, x => (x, none)
  | .num lit, x =>
    match parseFloat64 lit with
    | some n => (n, none)
    | none => (x, some (.type ("number " ++ lit) "float64"))
  | j, x => (x, some (.type (describe j) "float64"))

/-- The elements of a JSON array decoded one by one into the elements the
backing array of the slice holds (`old`), in their order; an element beyond them
is decoded into a new zero value. -/
def decElems {α : Type} (d : Dec α) (zero : α) : List JSON → List α → List α × Option Error
  | [], _ => ([], none)
  | j :: js, old =>
    let r := d j (old.headD zero)
    let rs := decElems d zero js old.tail
    (r.1 :: rs.1, first r.2 rs.2)

/-- Decoding into a Go slice. A null gives the nil slice. The elements of an
array are decoded into the elements the slice and the rest of its backing array
hold, and into new zero values beyond them; the slice gets the length of the
array, and what the backing array holds beyond it stays there. An empty array
gives a new empty slice. -/
def decSlice {α : Type} (goType : String) (d : Dec α) (zero : α) : Dec (Slice α)
  | .null, _ => ({}, none)
  | .arr js, x =>
    let r := decElems d zero js (x.elems ++ x.spare)
    (⟨r.1, if js.isEmpty then [] else (x.elems ++ x.spare).drop js.length⟩, r.2)
  | j, x => (x, some (.type (describe j) goType))

/-- Decoding into a Go pointer: a null gives nil; another value is decoded into
the value pointed to, a new zero value when the pointer was nil. -/
def decPtr {α : Type} (d : Dec α) (zero : α) : Dec (Option α)
  | .null, _ => (none, none)
  | j, x =>
    let r := d j (x.getD zero)
    (some r.1, r.2)

/-- Store a key of a Go map. -/
def mapSet {β : Type} (k : String) (v : β) : List (String × β) → List (String × β)
  | [] => [(k, v)]
  | (k1, v1) :: m => if k1 == k then (k, v) :: m else (k1, v1) :: mapSet k v m

/-- The members of a JSON object decoded into a Go map: each value is decoded
into a new zero value and stored under the member name. -/
def decMapMembers {β : Type} (d : Dec β) (zero : β) :
    List (String × JSON) → List (String × β) → List (String × β) × Option Error
  | [], m => (m, none)
  | (k, j) :: ms, m =>
    let r := d j zero
    let rs := decMapMembers d zero ms (mapSet k r.1 m)
    (rs.1, first r.2 rs.2)

/-- Decoding into a Go `map[string]β`, a list of keys and values. A nil map and
an empty one are both the empty list. -/
def decMap {β : Type} (goType : String) (d : Dec β) (zero : β) : Dec (List (String × β))
  | .null, _ => ([], none)
  | .obj ms, m => decMapMembers d zero ms m
  | j, m => (m, some (.type (describe j) goType))

/-- The smallest character that is the same letter as `c`, case apart, for the
characters that fold to an ASCII letter: small letters, the Kelvin sign and the
long s. Other characters are left alone: they never fold to an ASCII letter or
digit, and the field names of this package are made of these only. -/
def foldRune (c : Char) : Char :=
  if isLower c then Char.ofNat (c.toNat - 32)
  else if c.toNat == 8490 then Char.ofNat 75
  else if c.toNat == 383 then Char.ofNat 83
  else c

def foldName (s : String) : List Char :=
  s.toList.map foldRune

/-- A field of a Go struct as `Unmarshal` sees it: its JSON name and the
decoder of a member value into that field of the record. -/
structure Field (α : Type) where
  name : String
  dec : Dec α

/-- A field of a record with its getter, its setter and the decoder of its type. -/
def field {α β : Type} (name : String) (get : α → β) (set : α → β → α) (d : Dec β) : Field α :=
  ⟨name, fun j a => let r := d j (get a); (set a r.1, r.2)⟩

/-- The field a member name selects: the field of that exact name, else the
first field whose name is the same up to case. -/
def findField {α : Type} (fs : List (Field α)) (key : String) : Option (Field α) :=
  match fs.find? (fun f => f.name == key) with
  | some f => some f
  | none => fs.find? (fun f => foldName f.name == foldName key)

/-- The members of a JSON object decoded into a struct, in document order. A
member that selects no field is skipped. -/
def decMembers {α : Type} (fs : List (Field α)) : List (String × JSON) → α → α × Option Error
  | [], a => (a, none)
  | (k, j) :: ms, a =>
    match findField fs k with
    | none => decMembers fs ms a
    | some f =>
      let r := f.dec j a
      let rs := decMembers fs ms r.1
      (rs.1, first r.2 rs.2)

/-- Decoding into a Go struct. -/
def decStruct {α : Type} (goType : String) (fs : List (Field α)) : Dec α
  | .null, a => (a, none)
  | .obj ms, a => decMembers fs ms a
  | j, a => (a, some (.type (describe j) goType))

/-- The function `json.Valid`. -/
def Valid (data : String) : Bool :=
  (parse data).isSome

/-- The function `json.Unmarshal(data, &v)` for a target of the type `d`
decodes: the value of the target afterwards, and the error returned. A text
that is not valid JSON leaves the target as it was. -/
def Unmarshal {α : Type} (d : Dec α) (data : String) (v : α) : α × Option Error :=
  match parse data with
  | none => (v, some .malformed)
  | some j => d j v

end json

/-! ## The data model of package bento -/

/-- A `*log.Logger`, known by the sink it writes to. -/
inductive Logger where
  | discard
  | sink (name : String)
deriving DecidableEq, Repr

structure Address where
  Active : Bool := false
  AddressType : String := ""
  City : String := ""
  Id : Int := 0
  State : String := ""
  Street : String := ""
  ZipCode : String := ""
deriving DecidableEq, Repr

structure Business where
  BusinessId : Int := 0
  CompanyName : String := ""
  NameOnCard : String := ""
  Phone : String := ""
  AccountNumber : String := ""
  BusinessStructure : String := ""
  Status : String := ""
  CreatedDate : Int := 0
  ApprovalDate : Int := 0
  ApprovalStatus : String := ""
  Balance : Float64 := {}
  TimeZone : String := ""
  Addresses : Slice Address := {}
deriving DecidableEq, Repr

structure ApiApplication where
  ApiApplicationId : Int := 0
  Name : String := ""
  AccessKey : String := ""
  Business : Business := {}
deriving DecidableEq, Repr

structure SpendingLimit where
  Active : Bool := false
  Amount : Float64 := {}
  Period : String := ""
  CustomStartDate : Int := 0
  CustomEndDate : Int := 0
deriving DecidableEq, Repr

structure User where
  FirstName : String := ""
  LastName : String := ""
  BirthDate : Int := 0
  Email : String := ""
  Phone : String := ""
  UserId : Int := 0
  MobileAccess : Bool := false
  Deleted : Bool := false
  Created : Int := 0
  BentoType : String := ""
deriving DecidableEq, Repr

/-- The field `Type` of the source is `Typ` here. -/
structure Category where
  TransactionCategoryId : Int := 0
  Description : String := ""
  Group : String := ""
  Mccs : Slice Int := {}
  Name : String := ""
  Typ : String := ""
  BentoType : String := ""
deriving DecidableEq, Repr

abbrev CardType := String

def BUSINESS_OWNER_CARD : CardType := "BusinessOwnerCard"

def EMPLOYEE_CARD : CardType := "EmployeeCard"

def CATEGORY_CARD : CardType := "CategoryCard"

def STATUS_CANCELED : String := "CANCELED"

def STATUS_FRAUD_PREVENTION : String := "FRAUD_PREVENTION"

def STATUS_TURNED_ON : String := "TURNED_ON"

def STATUS_TURNED_OFF : String := "TURNED_OFF"

def STATUS_WEEKLY_RESTRICTION : String := "WEEKLY_RESTRICTION"

/-- The serialized fields of a `Card`: all its fields but `session`, whose tag
is `json:"-"`. The field `Type` of the source is `Typ` here. -/
structure CardFields where
  CardId : Int := 0
  Typ : CardType := ""
  LifecycleStatus : String := ""
  Status : String := ""
  Expiration : String := ""
  LastFour : String := ""
  VirtualCard : Bool := false
  Alias : String := ""
  AvailableAmount : Float64 := {}
  AllowedDaysActive : Bool := false
  AllowedDays : Slice String := {}
  AllowedCategoriesActive : Bool := false
  AllowedCategories : Slice Category := {}
  TransactionCategoryId : Int := 0
  CreatedOn : Int := 0
  UpdatedOn : Int := 0
  SpendingLimit : SpendingLimit := {}
  User : User := {}
  Permissions : List (String × Bool) := []
  BentoType : String := ""
deriving DecidableEq, Repr

structure PanAndCvv where
  Pan : String := ""
  Cvv : String := ""
deriving DecidableEq, Repr

set_option linter.dupNamespace false in
structure BentoError where
  Message : String := ""
  BentoError : String := ""
deriving DecidableEq, Repr

/-- A Go `error` value of this package. -/
inductive GoError where
  /-- The error `errors.New(msg)`. -/
  | errorString (msg : String)
  /-- A `BentoError` returned as an error. -/
  | bento (e : BentoError)
  /-- An error returned by `json.Unmarshal`. -/
  | json (e : json.Error)
  /-- The error `errors.New(fmt.Sprintf("Error unmarshalling: %s", err))`. -/
  | unmarshalling (e : json.Error)
  /-- An error of the host platform or of a transport, known by its text. -/
  | other (text : String)
deriving DecidableEq, Repr

/-- A value stored in a `map[string]interface{}` payload. -/
inductive Value where
  | string (s : String)
  | bool (b : Bool)
  | int (n : Int)
deriving DecidableEq, Repr

/-- The payload of a request, an `interface{}` in the source: nil, a map, a
`*Card` (its serialized fields) or an `*Address`. -/
inductive Args where
  | nil
  | map (members : List (String × Value))
  | card (c : CardFields)
  | address (a : Option Address)
deriving DecidableEq, Repr

/-- The fields of a `Session` a transport function can read. -/
structure SessionData where
  apiUri : String := ""
  authorization : String := ""
  logger : Logger := .discard
deriving DecidableEq, Repr

/-- The type of the field `requester`: session, method, endpoint, payload. The
state `σ` is what the function can change: the network, captured variables.
A transport reads the session and the payload it is handed and does not
write through them, as `doRequest` and the transports of the test suite. -/
abbrev Requester (σ : Type) :=
  SessionData → String → String → Args → σ → Except GoError String × σ

structure Session (σ : Type) extends SessionData where
  requester : Requester σ

structure Card (σ : Type) extends CardFields where
  session : Option (Session σ) := none

/-- The assignment `card.Status = status`. -/
def Card.setStatus {σ : Type} (card : Card σ) (status : String) : Card σ :=
  { card with Status := status }

/-- The assignment `card.LastFour = lastFour`. -/
def Card.setLastFour {σ : Type} (card : Card σ) (lastFour : String) : Card σ :=
  { card with LastFour := lastFour }

/-- The assignment `card.session = session`. -/
def Card.setSession {σ : Type} (card : Card σ) (session : Option (Session σ)) : Card σ :=
  { card with session := session }

structure Payee where
  Name : String := ""
  City : String := ""
  State : String := ""
  Country : String := ""
  Zip : String := ""
deriving DecidableEq, Repr

/-- The field `Type` of the source is `Typ` here. -/
structure Transaction (σ : Type) where
  CardTransactionId : Int := 0
  Amount : Float64 := {}
  ApprovalCode : String := ""
  AvailableBalance : Float64 := {}
  Card : Option (Card σ) := none
  Category : Option Category := none
  Currency : String := ""
  Deleted : Bool := false
  Fees : Float64 := {}
  LedgerBalance : Float64 := {}
  Note : String := ""
  SettlementDate : Int := 0
  Status : String := ""
  Tags : Slice String := {}
  TransactionDate : Int := 0
  Typ : String := ""
  Payee : Option Payee := none

structure Transactions (σ : Type) where
  Amount : Float64 := {}
  Size : Int := 0
  CardTransactions : Slice (Transaction σ) := {}

/-! ## The JSON fields of the records -/

def Address.fields : List (json.Field Address) :=
  [
    json.field "active" (fun x => x.Active) (fun x v => { x with Active := v }) json.decBool,
    json.field "addressType" (fun x => x.AddressType) (fun x v => { x with AddressType := v }) (json.decString "bento.AddressType"),
    json.field "city" (fun x => x.City) (fun x v => { x with City := v }) (json.decString "string"),
    json.field "id" (fun x => x.Id) (fun x v => { x with Id := v }) (json.decInt "int64"),
    json.field "state" (fun x => x.State) (fun x v => { x with State := v }) (json.decString "string"),
    json.field "street" (fun x => x.Street) (fun x v => { x with Street := v }) (json.decString "string"),
    json.field "zipCode" (fun x => x.ZipCode) (fun x v => { x with ZipCode := v }) (json.decString "string") ]

def decAddress : json.Dec Address :=
  json.decStruct "bento.Address" Address.fields

def Business.fields : List (json.Field Business) :=
  [
    json.field "businessId" (fun x => x.BusinessId) (fun x v => { x with BusinessId := v }) (json.decInt "int64"),
    json.field "companyName" (fun x => x.CompanyName) (fun x v => { x with CompanyName := v }) (json.decString "string"),
    json.field "nameOnCard" (fun x => x.NameOnCard) (fun x v => { x with NameOnCard := v }) (json.decString "string"),
    json.field "phone" (fun x => x.Phone) (fun x v => { x with Phone := v }) (json.decString "string"),
    json.field "accountNumber" (fun x => x.AccountNumber) (fun x v => { x with AccountNumber := v }) (json.decString "string"),
    json.field "businessStructure" (fun x => x.BusinessStructure) (fun x v => { x with BusinessStructure := v }) (json.decString "string"),
    json.field "status" (fun x => x.Status) (fun x v => { x with Status := v }) (json.decString "string"),
    json.field "createdDate" (fun x => x.CreatedDate) (fun x v => { x with CreatedDate := v }) (json.decInt "int64"),
    json.field "approvalDate" (fun x => x.ApprovalDate) (fun x v => { x with ApprovalDate := v }) (json.decInt "int64"),
    json.field "approvalStatus" (fun x => x.ApprovalStatus) (fun x v => { x with ApprovalStatus := v }) (json.decString "string"),
    json.field "balance" (fun x => x.Balance) (fun x v => { x with Balance := v }) json.decFloat64,
    json.field "timeZone" (fun x => x.TimeZone) (fun x v => { x with TimeZone := v }) (json.decString "string"),
    json.field "addresses" (fun x => x.Addresses) (fun x v => { x with Addresses := v }) (json.decSlice "[]bento.Address" decAddress {}) ]

def decBusiness : json.Dec Business :=
  json.decStruct "bento.Business" Business.fields

def ApiApplication.fields : List (json.Field ApiApplication) :=
  [
    json.field "apiApplicationId" (fun x => x.ApiApplicationId) (fun x v => { x with ApiApplicationId := v }) (json.decInt "int64"),
    json.field "name" (fun x => x.Name) (fun x v => { x with Name := v }) (json.decString "string"),
    json.field "accessKey" (fun x => x.AccessKey) (fun x v => { x with AccessKey := v }) (json.decString "string"),
    json.field "business" (fun x => x.Business) (fun x v => { x with Business := v }) decBusiness ]

def decApiApplication : json.Dec ApiApplication :=
  json.decStruct "bento.ApiApplication" ApiApplication.fields

def SpendingLimit.fields : List (json.Field SpendingLimit) :=
  [
    json.field "active" (fun x => x.Active) (fun x v => { x with Active := v }) json.decBool,
    json.field "amount" (fun x => x.Amount) (fun x v => { x with Amount := v }) json.decFloat64,
    json.field "period" (fun x => x.Period) (fun x v => { x with Period := v }) (json.decString "bento.Period"),
    json.field "customStartDate" (fun x => x.CustomStartDate) (fun x v => { x with CustomStartDate := v }) (json.decInt "int64"),
    json.field "customEndDate" (fun x => x.CustomEndDate) (fun x v => { x with CustomEndDate := v }) (json.decInt "int64") ]

def decSpendingLimit : json.Dec SpendingLimit :=
  json.decStruct "bento.SpendingLimit" SpendingLimit.fields

def User.fields : List (json.Field User) :=
  [
    json.field "firstName" (fun x => x.FirstName) (fun x v => { x with FirstName := v }) (json.decString "string"),
    json.field "lastName" (fun x => x.LastName) (fun x v => { x with LastName := v }) (json.decString "string"),
    json.field "birthDate" (fun x => x.BirthDate) (fun x v => { x with BirthDate := v }) (json.decInt "int64"),
    json.field "email" (fun x => x.Email) (fun x v => { x with Email := v }) (json.decString "string"),
    json.field "phone" (fun x => x.Phone) (fun x v => { x with Phone := v }) (json.decString "string"),
    json.field "userId" (fun x => x.UserId) (fun x v => { x with UserId := v }) (json.decInt "int64"),
    json.field "mobileAccess" (fun x => x.MobileAccess) (fun x v => { x with MobileAccess := v }) json.decBool,
    json.field "deleted" (fun x => x.Deleted) (fun x v => { x with Deleted := v }) json.decBool,
    json.field "created" (fun x => x.Created) (fun x v => { x with Created := v }) (json.decInt "int64"),
    json.field "bentoType" (fun x => x.BentoType) (fun x v => { x with BentoType := v }) (json.decString "string") ]

def decUser : json.Dec User :=
  json.decStruct "bento.User" User.fields

def Category.fields : List (json.Field Category) :=
  [
    json.field "transactionCategoryId" (fun x => x.TransactionCategoryId) (fun x v => { x with TransactionCategoryId := v }) (json.decInt "int64"),
    json.field "description" (fun x => x.Description) (fun x v => { x with Description := v }) (json.decString "string"),
    json.field "group" (fun x => x.Group) (fun x v => { x with Group := v }) (json.decString "string"),
    json.field "mccs" (fun x => x.Mccs) (fun x v => { x with Mccs := v }) (json.decSlice "[]int64" (json.decInt "int64") 0),
    json.field "name" (fun x => x.Name) (fun x v => { x with Name := v }) (json.decString "string"),
    json.field "type" (fun x => x.Typ) (fun x v => { x with Typ := v }) (json.decString "string"),
    json.field "bentoType" (fun x => x.BentoType) (fun x v => { x with BentoType := v }) (json.decString "string") ]

def decCategory : json.Dec Category :=
  json.decStruct "bento.Category" Category.fields

def CardFields.fields : List (json.Field CardFields) :=
  [
    json.field "cardId" (fun x => x.CardId) (fun x v => { x with CardId := v }) (json.decInt "int64"),
    json.field "type" (fun x => x.Typ) (fun x v => { x with Typ := v }) (json.decString "bento.CardType"),
    json.field "lifecycleStatus" (fun x => x.LifecycleStatus) (fun x v => { x with LifecycleStatus := v }) (json.decString "string"),
    json.field "status" (fun x => x.Status) (fun x v => { x with Status := v }) (json.decString "string"),
    json.field "expiration" (fun x => x.Expiration) (fun x v => { x with Expiration := v }) (json.decString "string"),
    json.field "lastFour" (fun x => x.LastFour) (fun x v => { x with LastFour := v }) (json.decString "string"),
    json.field "virtualCard" (fun x => x.VirtualCard) (fun x v => { x with VirtualCard := v }) json.decBool,
    json.field "alias" (fun x => x.Alias) (fun x v => { x with Alias := v }) (json.decString "string"),
    json.field "availableAmount" (fun x => x.AvailableAmount) (fun x v => { x with AvailableAmount := v }) json.decFloat64,
    json.field "allowedDaysActive" (fun x => x.AllowedDaysActive) (fun x v => { x with AllowedDaysActive := v }) json.decBool,
    json.field "allowedDays" (fun x => x.AllowedDays) (fun x v => { x with AllowedDays := v }) (json.decSlice "[]string" (json.decString "string") ""),
    json.field "allowedCategoriesActive" (fun x => x.AllowedCategoriesActive) (fun x v => { x with AllowedCategoriesActive := v }) json.decBool,
    json.field "allowedCategories" (fun x => x.AllowedCategories) (fun x v => { x with AllowedCategories := v }) (json.decSlice "[]bento.Category" decCategory {}),
    json.field "transactionCategoryId" (fun x => x.TransactionCategoryId) (fun x v => { x with TransactionCategoryId := v }) (json.decInt "int64"),
    json.field "createdOn" (fun x => x.CreatedOn) (fun x v => { x with CreatedOn := v }) (json.decInt "int64"),
    json.field "updatedOn" (fun x => x.UpdatedOn) (fun x v => { x with UpdatedOn := v }) (json.decInt "int64"),
    json.field "spendingLimit" (fun x => x.SpendingLimit) (fun x v => { x with SpendingLimit := v }) decSpendingLimit,
    json.field "user" (fun x => x.User) (fun x v => { x with User := v }) decUser,
    json.field "permissions" (fun x => x.Permissions) (fun x v => { x with Permissions := v }) (json.decMap "map[string]bool" json.decBool false),
    json.field "bentoType" (fun x => x.BentoType) (fun x v => { x with BentoType := v }) (json.decString "string") ]

def decCardFields : json.Dec CardFields :=
  json.decStruct "bento.Card" CardFields.fields

/-- Decoding into a `Card`: the serialized fields; `session` is left alone. -/
def decCard {σ : Type} : json.Dec (Card σ) :=
  fun j c => let r := decCardFields j c.toCardFields; ({ c with toCardFields := r.1 }, r.2)

def PanAndCvv.fields : List (json.Field PanAndCvv) :=
  [
    json.field "pan" (fun x => x.Pan) (fun x v => { x with Pan := v }) (json.decString "string"),
    json.field "cvv" (fun x => x.Cvv) (fun x v => { x with Cvv := v }) (json.decString "string") ]

def decPanAndCvv : json.Dec PanAndCvv :=
  json.decStruct "bento.PanAndCvv" PanAndCvv.fields

/-- The field `Message` has no tag: its JSON name is `Message`. -/
def BentoError.fields : List (json.Field Bento.BentoError) :=
  [
    json.field "Message" (fun x => x.Message) (fun x v => { x with Message := v }) (json.decString "string"),
    json.field "error" (fun x => x.BentoError) (fun x v => { x with BentoError := v }) (json.decString "string") ]

def decBentoError : json.Dec BentoError :=
  json.decStruct "bento.BentoError" BentoError.fields

def Payee.fields : List (json.Field Payee) :=
  [
    json.field "name" (fun x => x.Name) (fun x v => { x with Name := v }) (json.decString "string"),
    json.field "city" (fun x => x.City) (fun x v => { x with City := v }) (json.decString "string"),
    json.field "state" (fun x => x.State) (fun x v => { x with State := v }) (json.decString "string"),
    json.field "country" (fun x => x.Country) (fun x v => { x with Country := v }) (json.decString "string"),
    json.field "zip" (fun x => x.Zip) (fun x v => { x with Zip := v }) (json.decString "string") ]

def decPayee : json.Dec Payee :=
  json.decStruct "bento.Payee" Payee.fields

/-- The JSON name of `Note` is `node`, as its tag says. -/
def Transaction.fields {σ : Type} : List (json.Field (Transaction σ)) :=
  [
    json.field "cardTransactionId" (fun x => x.CardTransactionId) (fun x v => { x with CardTransactionId := v }) (json.decInt "int64"),
    json.field "amount" (fun x => x.Amount) (fun x v => { x with Amount := v }) json.decFloat64,
    json.field "approvalCode" (fun x => x.ApprovalCode) (fun x v => { x with ApprovalCode := v }) (json.decString "string"),
    json.field "availableBalance" (fun x => x.AvailableBalance) (fun x v => { x with AvailableBalance := v }) json.decFloat64,
    json.field "card" (fun x => x.Card) (fun x v => { x with Card := v }) (json.decPtr decCard {}),
    json.field "category" (fun x => x.Category) (fun x v => { x with Category := v }) (json.decPtr decCategory {}),
    json.field "currency" (fun x => x.Currency) (fun x v => { x with Currency := v }) (json.decString "string"),
    json.field "deleted" (fun x => x.Deleted) (fun x v => { x with Deleted := v }) json.decBool,
    json.field "fees" (fun x => x.Fees) (fun x v => { x with Fees := v }) json.decFloat64,
    json.field "ledgerBalance" (fun x => x.LedgerBalance) (fun x v => { x with LedgerBalance := v }) json.decFloat64,
    json.field "node" (fun x => x.Note) (fun x v => { x with Note := v }) (json.decString "string"),
    json.field "settlementDate" (fun x => x.SettlementDate) (fun x v => { x with SettlementDate := v }) (json.decInt "int64"),
    json.field "status" (fun x => x.Status) (fun x v => { x with Status := v }) (json.decString "string"),
    json.field "tags" (fun x => x.Tags) (fun x v => { x with Tags := v }) (json.decSlice "[]string" (json.decString "string") ""),
    json.field "transactionDate" (fun x => x.TransactionDate) (fun x v => { x with TransactionDate := v }) (json.decInt "int64"),
    json.field "type" (fun x => x.Typ) (fun x v => { x with Typ := v }) (json.decString "string"),
    json.field "payee" (fun x => x.Payee) (fun x v => { x with Payee := v }) (json.decPtr decPayee {}) ]

def decTransaction {σ : Type} : json.Dec (Transaction σ) :=
  json.decStruct "bento.Transaction" Transaction.fields

def Transactions.fields {σ : Type} : List (json.Field (Transactions σ)) :=
  [
    json.field "amount" (fun x => x.Amount) (fun x v => { x with Amount := v }) json.decFloat64,
    json.field "size" (fun x => x.Size) (fun x v => { x with Size := v }) (json.decInt "int"),
    json.field "cardTransactions" (fun x => x.CardTransactions) (fun x v => { x with CardTransactions := v }) (json.decSlice "[]bento.Transaction" decTransaction {}) ]

def decTransactions {σ : Type} : json.Dec (Transactions σ) :=
  json.decStruct "bento.Transactions" Transactions.fields

/-! ## Errors and the host platform -/

/-- The method `BentoError.Error`. -/
def BentoError.Error (e : Bento.BentoError) : String :=
  "Bento Error: [" ++ e.Message ++ "], [" ++ e.BentoError ++ "]"

/-- The function `checkError`: nil (`none`) or the `BentoError` found in the
bytes. -/
def checkError (bs : String) : Option GoError :=
  match json.Unmarshal decBentoError bs {} with
  | (_, some _) => none
  | (bentoErr, none) =>
    if bentoErr.Message != "" || bentoErr.BentoError != "" then some (.bento bentoErr)
    else none

def sandboxUri : String := "https://sandbox-api.bentoforbusiness.com/api"

def productionUri : String := "https://api.bentoforbusiness.com"

structure HttpRequest where
  method : String
  url : String
  header : List (String × String) := []
  body : Option String := none
deriving DecidableEq, Repr

/-- The method `req.Header.Add`. -/
def HttpRequest.addHeader (req : HttpRequest) (key value : String) : HttpRequest :=
  { req with header := req.header ++ [(key, value)] }

/-- An HTTP response: its header, a map from names to the values received
under each, and what `ioutil.ReadAll(resp.Body)` returns. -/
structure HttpResponse where
  header : List (String × List String) := []
  body : Except GoError String

/-- The index expression `header[key]` with its second result: the values and
whether the key is there. -/
def lookupHeader (header : List (String × List String)) (key : String) : Option (List String) :=
  (header.find? fun kv => kv.1 == key).map fun kv => kv.2

/-- The libraries the client calls: `json.Marshal` on a payload,
`http.NewRequest` (method, URL, body) and `(*http.Client).Do`, which acts on the
network `ω`. -/
structure Platform (ω : Type) where
  marshal : Args → Except GoError String
  newRequest : String → String → Option String → Except GoError HttpRequest
  clientDo : HttpRequest → ω → Except GoError HttpResponse × ω

/-! ## Sessions -/

/-- The request `doRequest` sends, or the error that stops it before sending. -/
def buildRequest {ω : Type} (P : Platform ω) (session : SessionData)
    (method endpoint : String) (args : Args) : Except GoError HttpRequest :=
  match args with
  | .nil =>
    match P.newRequest method (session.apiUri ++ endpoint) none with
    | .error err => .error err
    | .ok req =>
      .ok ((req.addHeader "Accept" "*/*").addHeader "Authorization" session.authorization)
  | args =>
    match P.marshal args with
    | .error err => .error err
    | .ok bs =>
      match P.newRequest method (session.apiUri ++ endpoint) (some bs) with
      | .error err => .error err
      | .ok req =>
        .ok (((req.addHeader "Content-Type" "application\\json").addHeader "Accept" "*/*").addHeader
          "Authorization" session.authorization)

/-- The function `doRequest`, the transport of the sessions `getSession` makes.
The lines it writes to the logger are not modelled. -/
def doRequest {ω : Type} (P : Platform ω) : Requester ω :=
  fun session method endpoint args w =>
    match buildRequest P session method endpoint args with
    | .error err => (.error err, w)
    | .ok req =>
      match P.clientDo req w with
      | (.error err, w1) => (.error err, w1)
      | (.ok resp, w1) =>
        match resp.body with
        | .error err => (.error err, w1)
        | .ok body =>
          if !json.Valid body then
            (.error (.errorString ("Server returned non-json value: [" ++ body ++ "]")), w1)
          else
            match checkError body with
            | some err => (.error err, w1)
            | none => (.ok body, w1)

/-- The part of `getSession` after the response has come: from the header and
the body read, the session or the error. `none`: the index `auth[0]` is out of
range. -/
def sessionOfResponse {ω : Type} (P : Platform ω) (apiUri : String) (resp : HttpResponse) :
    Option (Except GoError (Session ω)) :=
  match resp.body with
  | .error err => some (.error err)
  | .ok body =>
    if !json.Valid body then
      some (.error (.errorString ("Invalid json response: [" ++ body ++ "]")))
    else
      match lookupHeader resp.header "Authorization" with
      | none => some (.error (.errorString "Server did not return an authorization token."))
      | some auth =>
        match json.Unmarshal decApiApplication body {} with
        | (_, some err) => some (.error (.unmarshalling err))
        | (_, none) =>
          match auth with
          | [] => none
          | a :: _ =>
            some (.ok
              { apiUri := apiUri
                authorization := a
                requester := doRequest P
                logger := .discard })

/-- The function `getSession`. -/
def getSession {ω : Type} (P : Platform ω) (apiUri accessKey secretKey : String) (w : ω) :
    Option (Except GoError (Session ω)) × ω :=
  match P.marshal (.map [("accessKey", .string accessKey), ("secretKey", .string secretKey)]) with
  | .error err => (some (.error err), w)
  | .ok bs =>
    match P.newRequest "POST" (apiUri ++ "/sessions") (some bs) with
    | .error err => (some (.error err), w)
    | .ok req =>
      match P.clientDo ((req.addHeader "Content-Type" "application\\json").addHeader "Accept" "*/*") w with
      | (.error err, w1) => (some (.error err), w1)
      | (.ok resp, w1) => (sessionOfResponse P apiUri resp, w1)

def GetProductionSession {ω : Type} (P : Platform ω) (accessKey secretKey : String) (w : ω) :
    Option (Except GoError (Session ω)) × ω :=
  getSession P productionUri accessKey secretKey w

def GetTestSession {ω : Type} (P : Platform ω) (accessKey secretKey : String) (w : ω) :
    Option (Except GoError (Session ω)) × ω :=
  getSession P sandboxUri accessKey secretKey w

def Session.SetLogger {σ : Type} (session : Session σ) (logger : Logger) : Session σ :=
  { session with logger := logger }

/-- The two steps every operation ends with: the transport error if there is
one, else the bytes decoded into a new record. -/
def decodeReply {α : Type} (d : json.Dec α) (zero : α) (r : Except GoError String) :
    Except GoError α :=
  match r with
  | .error err => .error err
  | .ok bs =>
    match json.Unmarshal d bs zero with
    | (_, some err) => .error (.json err)
    | (v, none) => .ok v

def Session.GetBusiness {σ : Type} (session : Session σ) (w : σ) : Except GoError Business × σ :=
  let r := session.requester session.toSessionData "GET" "/businesses/me" .nil w
  (decodeReply decBusiness {} r.1, r.2)

def Session.GetCards {σ : Type} (session : Session σ) (w : σ) :
    Except GoError (List (Card σ)) × σ :=
  let r := session.requester session.toSessionData "GET" "/cards" .nil w
  match decodeReply (json.decSlice "[]bento.Card" (decCard : json.Dec (Card σ)) {}) {} r.1 with
  | .error err => (.error err, r.2)
  | .ok cards => (.ok (cards.elems.map fun c => c.setSession (some session)), r.2)

def Session.GetCard {σ : Type} (session : Session σ) (cardId : Int) (w : σ) :
    Except GoError (Card σ) × σ :=
  let r := session.requester session.toSessionData "GET" ("/cards/" ++ toString cardId) .nil w
  match decodeReply (decCard : json.Dec (Card σ)) {} r.1 with
  | .error err => (.error err, r.2)
  | .ok card => (.ok (card.setSession (some session)), r.2)

/-- The payload of `NewCard`. -/
def newCardArgs (cardType : CardType) (aliasName : String) : Args :=
  .map [("type", .string cardType), ("alias", .string aliasName), ("virtualCard", .bool false),
    ("lastFour", .int 3215)]

def Session.NewCard {σ : Type} (session : Session σ) (cardType : CardType) (aliasName : String)
    (w : σ) : Except GoError (Card σ) × σ :=
  let r := session.requester session.toSessionData "POST" "/cards" (newCardArgs cardType aliasName) w
  match decodeReply (decCard : json.Dec (Card σ)) {} r.1 with
  | .error err => (.error err, r.2)
  | .ok cardResp => (.ok (cardResp.setSession (some session)), r.2)

def Session.GetTransactions {σ : Type} (session : Session σ) (w : σ) :
    Except GoError (Transactions σ) × σ :=
  let r := session.requester session.toSessionData "GET" "/transactions" .nil w
  (decodeReply decTransactions {} r.1, r.2)

/-! ## Cards -/

/-- What a method of `*Card` leaves: the pair it returns, the receiver as it is
after the call, and the world. -/
structure CardCall (σ α : Type) where
  ret : Except GoError α
  card : Card σ
  world : σ

/-- A request through the session of a card whose reply is a card: the body
shared by `Put`, `Delete`, `Activate` and `Reissue`. `none`: the card has no
session, and reading `card.session.requester` panics. -/
def Card.request {σ : Type} (card : Card σ) (method endpoint : String) (args : Args) (w : σ) :
    Option (CardCall σ (Card σ)) :=
  match card.session with
  | none => none
  | some session =>
    let r := session.requester session.toSessionData method endpoint args w
    match decodeReply (decCard : json.Dec (Card σ)) {} r.1 with
    | .error err => some ⟨.error err, card, r.2⟩
    | .ok cardResp => some ⟨.ok (cardResp.setSession card.session), card, r.2⟩

def Card.Put {σ : Type} (card : Card σ) (w : σ) : Option (CardCall σ (Card σ)) :=
  card.request "PUT" ("/cards/" ++ toString card.CardId) (.card card.toCardFields) w

def Card.Delete {σ : Type} (card : Card σ) (w : σ) : Option (CardCall σ (Card σ)) :=
  card.request "DELETE" ("/cards/" ++ toString card.CardId) .nil w

def Card.Activate {σ : Type} (card : Card σ) (lastFour : String) (w : σ) :
    Option (CardCall σ (Card σ)) :=
  let card := card.setLastFour lastFour
  card.request "POST" ("/cards/" ++ toString card.CardId ++ "/activation")
    (.card card.toCardFields) w

def Card.TurnOn {σ : Type} (card : Card σ) (w : σ) : Option (CardCall σ (Card σ)) :=
  let card := card.setStatus STATUS_TURNED_ON
  match card.Put w with
  | none => none
  | some ⟨.error err, receiver, w1⟩ => some ⟨.error err, receiver, w1⟩
  | some ⟨.ok resp, receiver, w1⟩ =>
    if resp.Status != STATUS_TURNED_ON then
      some ⟨.error (.errorString
        ("Bento returned success for turn on, but card's status is: " ++ resp.Status)),
        receiver, w1⟩
    else some ⟨.ok resp, receiver, w1⟩

def Card.TurnOff {σ : Type} (card : Card σ) (w : σ) : Option (CardCall σ (Card σ)) :=
  let card := card.setStatus STATUS_TURNED_OFF
  match card.Put w with
  | none => none
  | some ⟨.error err, receiver, w1⟩ => some ⟨.error err, receiver, w1⟩
  | some ⟨.ok resp, receiver, w1⟩ =>
    if resp.Status != STATUS_TURNED_OFF then
      some ⟨.error (.errorString
        ("Bento returned success for turn off, but card's status is: " ++ resp.Status)),
        receiver, w1⟩
    else some ⟨.ok resp, receiver, w1⟩

def Card.Reissue {σ : Type} (card : Card σ) (w : σ) : Option (CardCall σ (Card σ)) :=
  card.request "POST" ("/cards/" ++ toString card.CardId ++ "/reissue") .nil w

/-- A request through the session of a card whose reply is another record:
the body shared by `GetPanAndCvv` and the billing address methods. -/
def Card.fetch {σ α : Type} (card : Card σ) (d : json.Dec α) (zero : α)
    (method endpoint : String) (args : Args) (w : σ) : Option (CardCall σ α) :=
  match card.session with
  | none => none
  | some session =>
    let r := session.requester session.toSessionData method endpoint args w
    some ⟨decodeReply d zero r.1, card, r.2⟩

def Card.GetPanAndCvv {σ : Type} (card : Card σ) (w : σ) : Option (CardCall σ PanAndCvv) :=
  card.fetch decPanAndCvv {} "GET" ("/cards/" ++ toString card.CardId ++ "/pan") .nil w

def Card.GetBillingAddress {σ : Type} (card : Card σ) (w : σ) : Option (CardCall σ Address) :=
  card.fetch decAddress {} "GET" ("/cards/" ++ toString card.CardId ++ "/billingAddress") .nil w

/-- The line `SetBillingAddress` prints on standard output when the transport
fails is not modelled. -/
def Card.SetBillingAddress {σ : Type} (card : Card σ) (newAddress : Option Address) (w : σ) :
    Option (CardCall σ Address) :=
  card.fetch decAddress {} "POST" ("/cards/" ++ toString card.CardId ++ "/billingAddress")
    (.address newAddress) w

def Card.UpdateBillingAddress {σ : Type} (card : Card σ) (newAddress : Option Address) (w : σ) :
    Option (CardCall σ Address) :=
  card.fetch decAddress {} "PUT" ("/cards/" ++ toString card.CardId ++ "/billingAddress")
    (.address newAddress) w

/-! ## The transports of the test suite -/

def SampleBusiness : String :=
  "\x7b\n" ++
  "  \"businessId\": 12345,\n" ++
  "  \"companyName\": \"My Company Inc\",\n" ++
  "  \"nameOnCard\": \"My Company\",\n" ++
  "  \"phone\": \"9998881234\",\n" ++
  "  \"accountNumber\": \"820187766\",\n" ++
  "  \"businessStructure\": \"LLC\",\n" ++
  "  \"status\": \"APPROVED\",\n" ++
  "  \"createdDate\": 1495759408,\n" ++
  "  \"approvalDate\": 1495759408,\n" ++
  "  \"approvalStatus\": \"Approved\",\n" ++
  "  \"balance\": 100.99,\n" ++
  "  \"timeZone\": \"America/Los_Angeles\",\n" ++
  "  \"addresses\": [\n" ++
  "\t\x7b\n" ++
  "\t  \"active\": true,\n" ++
  "\t  \"addressType\": \"BUSINESS_ADDRESS\",\n" ++
  "\t  \"city\": \"San Francisco\",\n" ++
  "\t  \"id\": 12345,\n" ++
  "\t  \"state\": \"CA\",\n" ++
  "\t  \"street\": \"123 Main Street\",\n" ++
  "\t  \"zipCode\": \"94123\"\n" ++
  "\t\x7d\n" ++
  "  ]\n" ++
  "\x7d\n"

def SampleCard : String :=
  "\x7b\n" ++
  "  \"cardId\": 12345,\n" ++
  "  \"type\": \"CategoryCard\",\n" ++
  "  \"lifecycleStatus\": \"ACTIVATED\",\n" ++
  "  \"status\": \"TURNED_ON\",\n" ++
  "  \"expiration\": \"1221\",\n" ++
  "  \"lastFour\": \"1234\",\n" ++
  "  \"virtualCard\": false,\n" ++
  "  \"alias\": \"My Card\",\n" ++
  "  \"availableAmount\": 123.45,\n" ++
  "  \"allowedDays\": [\n" ++
  "\t\"MONDAY\"\n" ++
  "  ],\n" ++
  "  \"allowedCategoriesActive\": true,\n" ++
  "  \"allowedCategories\": [\n" ++
  "\t\x7b\n" ++
  "\t  \"transactionCategoryId\": 10\n" ++
  "\t\x7d\n" ++
  "  ],\n" ++
  "  \"createdOn\": 1495759408,\n" ++
  "  \"updatedOn\": 1495759408,\n" ++
  "  \"spendingLimit\": \x7b\n" ++
  "\t\"active\": true,\n" ++
  "\t\"amount\": 123.45,\n" ++
  "\t\"period\": \"Day\",\n" ++
  "\t\"customStartDate\": 1495759408,\n" ++
  "\t\"customEndDate\": 1495759408\n" ++
  "  \x7d,\n" ++
  "  \"user\": \x7b\n" ++
  "\t\"firstName\": \"John\",\n" ++
  "\t\"lastName\": \"Smith\",\n" ++
  "\t\"birthDate\": 1495759408,\n" ++
  "\t\"email\": \"me@myemail.com\",\n" ++
  "\t\"phone\": \"9998887654\",\n" ++
  "\t\"userId\": 12345,\n" ++
  "\t\"mobileAccess\": true,\n" ++
  "\t\"deleted\": false,\n" ++
  "\t\"created\": 1495759408\n" ++
  "  \x7d\n" ++
  "\x7d"

/-- The fields a `TestSession` adds to its `Session`: the last request seen. -/
structure TestSession where
  method : String := ""
  endpoint : String := ""
  args : Args := .nil
deriving DecidableEq, Repr

/-- The transport `testRequest(tbs)`; `tbs` tells whether a `TestSession` was
given (true) or nil (false). -/
def testRequest (tbs : Bool) : Requester TestSession :=
  fun _ method endpoint args t =>
    let t1 : TestSession := if tbs then ⟨method, endpoint, args⟩ else t
    if endpoint == "/businesses/me" then (.ok SampleBusiness, t1)
    else if endpoint == "/cards" then
      if method == "GET" then (.ok ("[" ++ SampleCard ++ "," ++ SampleCard ++ "]"), t1)
      else if method == "POST" then (.ok SampleCard, t1)
      else (.error (.errorString "No such testing endpoint."), t1)
    else if endpoint == "/cards/12345" then (.ok SampleCard, t1)
    else (.error (.errorString "No such testing endpoint."), t1)

/-- The transport `testRequestFailures(tbs)`. -/
def testRequestFailures (tbs : Bool) : Requester TestSession :=
  fun _ method endpoint args t =>
    let t1 : TestSession := if tbs then ⟨method, endpoint, args⟩ else t
    (.error (.errorString "<html>500 Error</html>"), t1)

/-- A platform for examples: marshalling gives an empty text, every request can
be built, and the network answers every request with `reply`. -/
def stubPlatform (reply : HttpResponse) : Platform Unit where
  marshal := fun _ => .ok ""
  newRequest := fun method url body => .ok { method := method, url := url, body := body }
  clientDo := fun _ w => (.ok reply, w)

/-- A transport that answers every request with the same bytes and no error,
as the transports of the test suite do for the endpoints they know. -/
def cannedRequester (bytes : String) : Requester Unit :=
  fun _ _ _ _ w => (.ok bytes, w)

/-- A business-error envelope. -/
def sampleBusinessError : String := "\x7b\"message\":\"boom\"\x7d"

/-- A session made the way `getSession` makes it, on a network that answers
every request with `sampleBusinessError`. -/
def envelopeSession : Session Unit :=
  { requester := doRequest (stubPlatform ⟨[], .ok sampleBusinessError⟩) }

/-- A session whose transport answers every request with `bytes`. -/
def cannedSession (bytes : String) : Session Unit :=
  { requester := cannedRequester bytes }

/-- A session of the test suite, on the always-failing transport. -/
def failingSession : Session TestSession :=
  { requester := testRequestFailures false }

/-- A reply to an update that echoes the status `TURNED_OFF`. -/
def turnedOffReply : String := "\x7b\"status\":\"TURNED_OFF\"\x7d"

/-- A card of a session whose transport answers with `turnedOffReply`. -/
def cannedCard : Card Unit :=
  Card.setSession { CardId := 12345 } (some (cannedSession turnedOffReply))

/-- A card of a session on the always-failing transport of the test suite. -/
def failingCard : Card TestSession :=
  Card.setSession { CardId := 12345, Status := "TURNED_OFF", LastFour := "1234" }
    (some failingSession)

/-- A bootstrap response with an `Authorization` header and the given body. -/
def tokenResponse (body : String) : HttpResponse :=
  ⟨[("Content-Type", ["application/json"]), ("Authorization", ["token-1"])], .ok body⟩

/-- A bootstrap response without an `Authorization` header. -/
def bareResponse (body : String) : HttpResponse :=
  ⟨[("Content-Type", ["text/html"])], .ok body⟩

/-- One call of a transport: method, endpoint, payload. -/
structure Call where
  method : String
  endpoint : String
  args : Args
deriving DecidableEq, Repr

/-- A transport instrumented to keep, next to its own state, the list of the
calls made to it, oldest first. -/
def Requester.traced {σ : Type} (requester : Requester σ) : Requester (σ × List Call) :=
  fun session method endpoint args w =>
    let r := requester session method endpoint args w.1
    (r.1, (r.2, w.2 ++ [⟨method, endpoint, args⟩]))

/-- A session with its transport instrumented. -/
def Session.traced {σ : Type} (session : Session σ) : Session (σ × List Call) :=
  { toSessionData := session.toSessionData, requester := session.requester.traced }

/-- The session of `TestNewCard`: a `TestSession` whose transport records in it. -/
def recordingSession : Session TestSession :=
  { requester := testRequest true }

/-- The record the sample card decodes to. -/
def sampleCardFields : CardFields :=
  { CardId := 12345
    Typ := "CategoryCard"
    LifecycleStatus := "ACTIVATED"
    Status := "TURNED_ON"
    Expiration := "1221"
    LastFour := "1234"
    VirtualCard := false
    Alias := "My Card"
    AvailableAmount := ⟨false, 1029, 4183421841362125⟩
    AllowedDays := ⟨["MONDAY"], []⟩
    AllowedCategoriesActive := true
    AllowedCategories := ⟨[{ TransactionCategoryId := 10 }], []⟩
    CreatedOn := 1495759408
    UpdatedOn := 1495759408
    SpendingLimit :=
      { Active := true, Amount := ⟨false, 1029, 4183421841362125⟩, Period := "Day",
        CustomStartDate := 1495759408, CustomEndDate := 1495759408 }
    User :=
      { FirstName := "John", LastName := "Smith", BirthDate := 1495759408,
        Email := "me@myemail.com", Phone := "9998887654", UserId := 12345,
        MobileAccess := true, Deleted := false, Created := 1495759408 } }

/-- Whether a member name selects the field of `BentoError` whose JSON name is
`name` (`Message` or `error`). -/
def goesTo (name key : String) : Bool :=
  match json.findField BentoError.fields key with
  | some f => f.name == name
  | none => false

/-- A session of the test suite, on the transport `testRequest(nil)`. -/
def testSession : Session TestSession :=
  { requester := testRequest false }

/-- The reply of `testRequest` to `GET /cards`: the sample card, twice. -/
def sampleCards : String := "[" ++ SampleCard ++ "," ++ SampleCard ++ "]"

/-- Whether a text is a JSON array. -/
def json.isArray (data : String) : Bool :=
  match parse data with
  | some (.arr _) => true
  | _ => false

/-- The elements of a text that is a JSON array. -/
def json.elemsOf (data : String) : List JSON :=
  match parse data with
  | some (.arr js) => js
  | _ => []

/-- Whether the member name `key` goes to the field named `name` of a struct
with the fields `fs`. -/
def json.selects {α : Type} (fs : List (json.Field α)) (name key : String) : Bool :=
  match json.findField fs key with
  | some f => f.name == name
  | none => false

/-- The like-named members of an object: the members that go to the field
named `name`, in document order. -/
def json.likeNamed {α : Type} (fs : List (json.Field α)) (name : String)
    (ms : List (String × JSON)) : List (String × JSON) :=
  ms.filter fun kv => json.selects fs name kv.1

/-- The value a target holds after the given members have been decoded into
it, one after the other. Of no member it is the value held before; of one
member it is the decoding of that member. -/
def json.decAll {β : Type} (d : json.Dec β) (ms : List (String × JSON)) (x : β) : β :=
  ms.foldl (fun x kv => (d kv.2 x).1) x

/-- The record the sample business decodes to. -/
def sampleBusiness : Business :=
  { BusinessId := 12345
    CompanyName := "My Company Inc"
    NameOnCard := "My Company"
    Phone := "9998881234"
    AccountNumber := "820187766"
    BusinessStructure := "LLC"
    Status := "APPROVED"
    CreatedDate := 1495759408
    ApprovalDate := 1495759408
    ApprovalStatus := "Approved"
    Balance := ⟨false, 1029, 2602939847131791⟩
    TimeZone := "America/Los_Angeles"
    Addresses :=
      ⟨[{ Active := true, AddressType := "BUSINESS_ADDRESS", City := "San Francisco", Id := 12345,
          State := "CA", Street := "123 Main Street", ZipCode := "94123" }], []⟩ }

/-- A reply to `GET /businesses/me` whose member `businessId` is a string. -/
def mistypedBusiness : String := "\x7b\"businessId\":\"12345\"\x7d"

/-- A reply to `GET /businesses/me` with two members. -/
def smallBusiness : String := "\x7b\"businessId\":12345,\"companyName\":\"My Company Inc\"\x7d"

/-- A reply to `GET /businesses/me` whose member `addresses` is a string. -/
def mistypedAddresses : String :=
  "\x7b\"companyName\":\"My Company Inc\",\"addresses\":\"none\"\x7d"

/-- A reply to `GET /businesses/me` with two members `addresses`. -/
def repeatedAddresses : String :=
  "\x7b\"addresses\":[\x7b\"id\":1\x7d,\x7b\"id\":2\x7d],\"addresses\":[\x7b\"city\":\"Oslo\"\x7d]\x7d"

/-- A card with the transport of its session instrumented. -/
def Card.traced {σ : Type} (card : Card σ) : Card (σ × List Call) :=
  { toCardFields := card.toCardFields, session := card.session.map Session.traced }

/-- A card of `testSession`, with the identifier of the sample card. -/
def testCard : Card TestSession :=
  Card.setSession { CardId := 12345 } (some testSession)

/-! ## The scanner: nesting -/

/-- An array or object may open only inside fewer than `maxNestingDepth` open
ones. -/
theorem beginValue_nesting (stack : List Frame) :
    (stack.length < maxNestingDepth →
      beginValue stack .beginArray = some ⟨.array [] :: stack, .first⟩ ∧
        beginValue stack .beginObject = some ⟨.object [] none :: stack, .first⟩) ∧
      (maxNestingDepth ≤ stack.length →
        beginValue stack .beginArray = none ∧ beginValue stack .beginObject = none) := by
  constructor
  · intro h
    simp [beginValue, h]
  · intro h
    simp [beginValue, Nat.not_lt.mpr h]

/-! ## The error classifier -/

theorem json.first_ne_none (e1 e2 : Option json.Error) (h : e2 ≠ none) :
    json.first e1 e2 ≠ none := by
  cases e1 <;> simp [json.first, h]

theorem json.first_left_ne_none (e1 e2 : Option json.Error) (h : e1 ≠ none) :
    json.first e1 e2 ≠ none := by
  cases e1 <;> simp_all [json.first]

theorem json.findField_mem {α : Type} (fs : List (json.Field α)) (key : String)
    (f : json.Field α) (h : json.findField fs key = some f) : f ∈ fs := by
  unfold json.findField at h
  split at h
  · rename_i g hg
    cases h
    exact List.mem_of_find?_eq_some hg
  · exact List.mem_of_find?_eq_some h

/-- One member that goes to a field whose decoder refuses its value makes the
decoding of the whole object fail, whatever the other members are. -/
theorem json.decMembers_fails {α : Type} (fs : List (json.Field α)) (ms : List (String × JSON))
    (a : α) (k : String) (v : JSON) (f : json.Field α) (hmem : (k, v) ∈ ms)
    (hf : json.findField fs k = some f) (hbad : ∀ x, (f.dec v x).2 ≠ none) :
    (json.decMembers fs ms a).2 ≠ none := by
  induction ms generalizing a with
  | nil => cases hmem
  | cons kv rest ih =>
    obtain ⟨k1, v1⟩ := kv
    rcases List.mem_cons.mp hmem with h | h
    · cases h
      simp only [json.decMembers, hf]
      exact json.first_left_ne_none _ _ (hbad a)
    · unfold json.decMembers
      split
      · exact ih a h
      · exact json.first_ne_none _ _ (ih _ h)

/-- A null member leaves the record as it is and is no error. -/
theorem bentoField_null (f : json.Field BentoError) (hf : f ∈ BentoError.fields)
    (b : BentoError) : f.dec .null b = (b, none) := by
  simp [BentoError.fields] at hf
  rcases hf with rfl | rfl <;> rfl

/-- An empty string member leaves the zero record as it is and is no error. -/
theorem bentoField_empty (f : json.Field BentoError) (hf : f ∈ BentoError.fields) :
    f.dec (.str "") {} = ({}, none) := by
  simp [BentoError.fields] at hf
  rcases hf with rfl | rfl <;> rfl

/-- A member that goes to a field and is neither a string nor null is a type
error. -/
theorem bentoField_bad (f : json.Field BentoError) (hf : f ∈ BentoError.fields) (v : JSON)
    (b : BentoError) (hnull : v ≠ .null) (hstr : ∀ s, v ≠ .str s) :
    (f.dec v b).2 ≠ none := by
  simp [BentoError.fields] at hf
  rcases hf with rfl | rfl <;> cases v <;> simp_all [json.field, json.decString]

/-- One member that goes to a field and is neither a string nor null makes the
decoding of the whole object fail, whatever the other members are. -/
theorem decMembers_bad (ms : List (String × JSON)) (b : BentoError) (k : String) (v : JSON)
    (hmem : (k, v) ∈ ms) (hk : (json.findField BentoError.fields k).isSome = true)
    (hnull : v ≠ .null) (hstr : ∀ s, v ≠ .str s) :
    (json.decMembers BentoError.fields ms b).2 ≠ none := by
  induction ms generalizing b with
  | nil => cases hmem
  | cons kv rest ih =>
    obtain ⟨k1, v1⟩ := kv
    rcases List.mem_cons.mp hmem with h | h
    · cases h
      obtain ⟨f, hf⟩ := Option.isSome_iff_exists.mp hk
      simp only [json.decMembers, hf]
      exact json.first_left_ne_none _ _
        (bentoField_bad f (json.findField_mem _ _ _ hf) v b hnull hstr)
    · unfold json.decMembers
      split
      · exact ih b h
      · exact json.first_ne_none _ _ (ih _ h)

/-- Members that go to no field, or are null or the empty string, leave the
zero record as it is. -/
theorem decMembers_empty (ms : List (String × JSON))
    (h : ∀ kv ∈ ms, (json.findField BentoError.fields kv.1).isSome = true →
      kv.2 = .str "" ∨ kv.2 = .null) :
    json.decMembers BentoError.fields ms {} = ({}, none) := by
  induction ms with
  | nil => rfl
  | cons kv rest ih =>
    obtain ⟨k1, v1⟩ := kv
    have hrest := ih fun kv hkv => h kv (List.mem_cons_of_mem _ hkv)
    unfold json.decMembers
    split
    · exact hrest
    · rename_i f hf
      have hv := h (k1, v1) (List.mem_cons_self _ _) (by simp [hf])
      have hmem := json.findField_mem _ _ _ hf
      rcases hv with hv | hv
      · simp only at hv
        subst hv
        simp [bentoField_empty f hmem, hrest, json.first]
      · simp only at hv
        subst hv
        simp [bentoField_null f hmem, hrest, json.first]

/-- The decoding of an object in which every member that goes to `Message` is
the string `m` and every member that goes to `error` is the string `e`: no
error, and each field holds its string if the object has a member for it, else
what it held before. -/
theorem decMembers_envelope (ms : List (String × JSON)) (m e : String)
    (hM : ∀ kv ∈ ms, goesTo "Message" kv.1 = true → kv.2 = .str m)
    (hE : ∀ kv ∈ ms, goesTo "error" kv.1 = true → kv.2 = .str e) (b : BentoError) :
    json.decMembers BentoError.fields ms b =
      (⟨bif ms.any (fun kv => goesTo "Message" kv.1) then m else b.Message,
        bif ms.any (fun kv => goesTo "error" kv.1) then e else b.BentoError⟩, none) := by
  induction ms generalizing b with
  | nil => rfl
  | cons kv rest ih =>
    obtain ⟨k, v⟩ := kv
    have ihr := ih (fun kv hkv => hM kv (List.mem_cons_of_mem _ hkv))
      (fun kv hkv => hE kv (List.mem_cons_of_mem _ hkv))
    have hMk := hM (k, v) (List.mem_cons_self _ _)
    have hEk := hE (k, v) (List.mem_cons_self _ _)
    unfold json.decMembers
    split
    · rename_i hf
      have h1 : goesTo "Message" k = false := by simp [goesTo, hf]
      have h2 : goesTo "error" k = false := by simp [goesTo, hf]
      rw [ihr b]
      simp only [List.any_cons, h1, h2, Bool.false_or]
    · rename_i f hf
      have hmem := json.findField_mem _ _ _ hf
      simp only [BentoError.fields, List.mem_cons, List.mem_singleton, List.not_mem_nil,
        or_false] at hmem
      rcases hmem with rfl | rfl
      · have h1 : goesTo "Message" k = true := by simp [goesTo, hf, json.field]
        have h2 : goesTo "error" k = false := by simp [goesTo, hf, json.field]
        have hv : v = .str m := hMk h1
        subst hv
        simp only [json.field, json.decString]
        rw [ihr]
        simp only [List.any_cons, h1, h2, Bool.false_or, Bool.true_or, json.first, cond_true]
        cases rest.any (fun kv => goesTo "Message" kv.1) <;>
          cases rest.any (fun kv => goesTo "error" kv.1) <;> rfl
      · have h1 : goesTo "Message" k = false := by simp [goesTo, hf, json.field]
        have h2 : goesTo "error" k = true := by simp [goesTo, hf, json.field]
        have hv : v = .str e := hEk h2
        subst hv
        simp only [json.field, json.decString]
        rw [ihr]
        simp only [List.any_cons, h1, h2, Bool.false_or, Bool.true_or, json.first, cond_true]
        cases rest.any (fun kv => goesTo "Message" kv.1) <;>
          cases rest.any (fun kv => goesTo "error" kv.1) <;> rfl


/-- What `checkError` returns, by the outcome of the decoding. -/
theorem checkError_eq (bs : String) :
    checkError bs =
      match json.Unmarshal decBentoError bs {} with
      | (_, some _) => none
      | (b, none) => if b.Message ≠ "" ∨ b.BentoError ≠ "" then some (.bento b) else none := by
  unfold checkError
  split <;> simp

/-- The decoding of an object into a `BentoError`. -/
theorem unmarshal_object (bs : String) (ms : List (String × JSON))
    (hp : parse bs = some (.obj ms)) (b : BentoError) :
    json.Unmarshal decBentoError bs b = json.decMembers BentoError.fields ms b := by
  simp [json.Unmarshal, hp, decBentoError, json.decStruct]

/-- The positive case read on the document: an object in which every member
that goes to `Message` is the string `m`, every member that goes to `error` is
the string `e`, a field without a member counting as the empty string, with `m`
or `e` not empty, is classified as the business error `m`, `e`. Members that go
to no field do not matter. -/
theorem checkError_envelope (bs : String) (ms : List (String × JSON)) (m e : String)
    (hp : parse bs = some (.obj ms))
    (hM : ∀ kv ∈ ms, goesTo "Message" kv.1 = true → kv.2 = .str m)
    (hE : ∀ kv ∈ ms, goesTo "error" kv.1 = true → kv.2 = .str e)
    (pM : ms.any (fun kv => goesTo "Message" kv.1) = true ∨ m = "")
    (pE : ms.any (fun kv => goesTo "error" kv.1) = true ∨ e = "")
    (hne : m ≠ "" ∨ e ≠ "") :
    checkError bs = some (.bento ⟨m, e⟩) := by
  have hdec : json.Unmarshal decBentoError bs {} = (⟨m, e⟩, none) := by
    rw [unmarshal_object bs ms hp, decMembers_envelope ms m e hM hE]
    have h1 : (bif ms.any (fun kv => goesTo "Message" kv.1) then m else "") = m := by
      rcases pM with h | h
      · rw [h]
        rfl
      · subst h
        cases ms.any (fun kv => goesTo "Message" kv.1) <;> rfl
    have h2 : (bif ms.any (fun kv => goesTo "error" kv.1) then e else "") = e := by
      rcases pE with h | h
      · rw [h]
        rfl
      · subst h
        cases ms.any (fun kv => goesTo "error" kv.1) <;> rfl
    show ((⟨bif ms.any (fun kv => goesTo "Message" kv.1) then m else "",
      bif ms.any (fun kv => goesTo "error" kv.1) then e else ""⟩ : BentoError), none) = _
    rw [h1, h2]
  rw [checkError_eq, hdec]
  simp [hne]

/-- C1. Error classifier, positive case: when the bytes decode into the
`BentoError` shape, with `m` decoded for `message` and `e` for `error`, and `m`
or `e` is not empty, `checkError` returns a non-nil error, the `BentoError`
with `Message = m` and `BentoError = e`. -/
theorem checkError_business_error (bs m e : String)
    (hdec : json.Unmarshal decBentoError bs {} = (⟨m, e⟩, none))
    (hne : m ≠ "" ∨ e ≠ "") :
    checkError bs = some (.bento ⟨m, e⟩) := by
  rw [checkError_eq, hdec]
  simp [hne]

theorem checkError_business_error_witness :
    json.Unmarshal decBentoError "\x7b\"message\":\"Card not found\",\"error\":\"NOT_FOUND\"\x7d" {}
        = (⟨"Card not found", "NOT_FOUND"⟩, none) ∧
      ("Card not found" ≠ "" ∨ "NOT_FOUND" ≠ "") ∧
      checkError "\x7b\"message\":\"Card not found\",\"error\":\"NOT_FOUND\"\x7d"
        = some (.bento ⟨"Card not found", "NOT_FOUND"⟩) :=
  ⟨by decide, by decide, checkError_business_error _ _ _ (by decide) (by decide)⟩

/-! ## Dispatch -/

/-- What `doRequest` returns once the request is built and the body read. -/
theorem doRequest_eq {ω : Type} (P : Platform ω) (session : SessionData)
    (method endpoint : String) (args : Args) (w w1 : ω) (req : HttpRequest)
    (header : List (String × List String)) (b : String)
    (hreq : buildRequest P session method endpoint args = .ok req)
    (hdo : P.clientDo req w = (.ok ⟨header, .ok b⟩, w1)) :
    doRequest P session method endpoint args w =
      (if json.Valid b = false then
          .error (.errorString ("Server returned non-json value: [" ++ b ++ "]"))
        else
          match checkError b with
          | some err => .error err
          | none => .ok b, w1) := by
  simp only [doRequest, hreq, hdo]
  cases hv : json.Valid b
  · simp
  · cases hc : checkError b <;> simp

/-- C2. `doRequest` after the body `b` has been read: it returns `b` unchanged
with no error exactly when `b` is valid JSON and `checkError b` is nil; when `b`
is valid JSON and `checkError b` is a business error with message `m` and code
`e`, it returns no bytes and fails with that error; when `b` is not valid JSON,
it returns no bytes and fails with the invalid-response error. -/
theorem doRequest_post_processing {ω : Type} (P : Platform ω) (session : SessionData)
    (method endpoint : String) (args : Args) (w w1 : ω) (req : HttpRequest)
    (header : List (String × List String)) (b : String)
    (hreq : buildRequest P session method endpoint args = .ok req)
    (hdo : P.clientDo req w = (.ok ⟨header, .ok b⟩, w1)) :
    ((∃ out, doRequest P session method endpoint args w = (.ok out, w1)) ↔
        (json.Valid b = true ∧ checkError b = none)) ∧
      (∀ out, (doRequest P session method endpoint args w).1 = .ok out → out = b) ∧
      (∀ m e, json.Valid b = true → checkError b = some (.bento ⟨m, e⟩) →
        doRequest P session method endpoint args w = (.error (.bento ⟨m, e⟩), w1)) ∧
      (json.Valid b = false →
        doRequest P session method endpoint args w =
          (.error (.errorString ("Server returned non-json value: [" ++ b ++ "]")), w1)) := by
  rw [doRequest_eq P session method endpoint args w w1 req header b hreq hdo]
  cases hv : json.Valid b
  · simp
  · cases hc : checkError b <;> simp

theorem doRequest_post_processing_witness :
    buildRequest (stubPlatform ⟨[], .ok "\x7b\"message\":\"boom\"\x7d"⟩) {} "GET" "/cards" .nil
        = .ok ⟨"GET", "/cards", [("Accept", "*/*"), ("Authorization", "")], none⟩ ∧
      (stubPlatform ⟨[], .ok "\x7b\"message\":\"boom\"\x7d"⟩).clientDo
          ⟨"GET", "/cards", [("Accept", "*/*"), ("Authorization", "")], none⟩ ()
        = (.ok ⟨[], .ok "\x7b\"message\":\"boom\"\x7d"⟩, ()) ∧
      doRequest (stubPlatform ⟨[], .ok "\x7b\"message\":\"boom\"\x7d"⟩) {} "GET" "/cards" .nil ()
        = (.error (.bento ⟨"boom", ""⟩), ()) :=
  ⟨rfl, rfl,
    (doRequest_post_processing (stubPlatform ⟨[], .ok "\x7b\"message\":\"boom\"\x7d"⟩) {} "GET"
      "/cards" .nil () () ⟨"GET", "/cards", [("Accept", "*/*"), ("Authorization", "")], none⟩ []
      "\x7b\"message\":\"boom\"\x7d" rfl rfl).2.2.1 "boom" "" (by decide) (by decide)⟩

/-! ## Business errors and the resource operations -/

theorem json.valid_of_unmarshal {α : Type} (d : json.Dec α) (data : String) (v x : α)
    (h : json.Unmarshal d data v = (x, none)) : json.Valid data = true := by
  unfold json.Unmarshal at h
  unfold json.Valid
  cases hp : parse data
  · rw [hp] at h
    cases h
  · rfl

/-- The default transport turns a business-error envelope into an error. -/
theorem doRequest_business_error {ω : Type} (P : Platform ω) (b m e : String)
    (hP : ∀ req w, ∃ header w1, P.clientDo req w = (.ok ⟨header, .ok b⟩, w1))
    (hdec : json.Unmarshal decBentoError b {} = (⟨m, e⟩, none)) (hne : m ≠ "" ∨ e ≠ "")
    (session : SessionData) (method endpoint : String) (args : Args) (w : ω) :
    ∃ err w1, doRequest P session method endpoint args w = (.error err, w1) := by
  cases hreq : buildRequest P session method endpoint args with
  | error err => exact ⟨err, w, by simp [doRequest, hreq]⟩
  | ok req =>
    obtain ⟨header, w1, hdo⟩ := hP req w
    refine ⟨.bento ⟨m, e⟩, w1, ?_⟩
    rw [doRequest_eq P session method endpoint args w w1 req header b hreq hdo]
    have hc : checkError b = some (.bento ⟨m, e⟩) := by
      rw [checkError_eq, hdec]
      simp [hne]
    simp [json.valid_of_unmarshal _ _ _ _ hdec, hc]

/-- A card request whose transport fails returns the error of the transport. -/
theorem Card.request_error {σ : Type} (card : Card σ) (session : Session σ)
    (hc : card.session = some session) (method endpoint : String) (args : Args) (w w1 : σ)
    (err : GoError)
    (h : session.requester session.toSessionData method endpoint args w = (.error err, w1)) :
    card.request method endpoint args w = some ⟨.error err, card, w1⟩ := by
  simp [Card.request, hc, h, decodeReply]

theorem Card.fetch_error {σ α : Type} (card : Card σ) (session : Session σ)
    (hc : card.session = some session) (d : json.Dec α) (zero : α)
    (method endpoint : String) (args : Args) (w w1 : σ) (err : GoError)
    (h : session.requester session.toSessionData method endpoint args w = (.error err, w1)) :
    card.fetch d zero method endpoint args w = some ⟨.error err, card, w1⟩ := by
  simp [Card.fetch, hc, h, decodeReply]

/-- C3, as the code has it. Through the default transport `doRequest` no
business error becomes a success: when the body the server answers with is a
business-error envelope, every resource operation of a session whose transport
is `doRequest`, and of a card of that session, returns an error. -/
theorem operations_fail_on_business_error {ω : Type} (P : Platform ω) (b m e : String)
    (hP : ∀ req w, ∃ header w1, P.clientDo req w = (.ok ⟨header, .ok b⟩, w1))
    (hdec : json.Unmarshal decBentoError b {} = (⟨m, e⟩, none)) (hne : m ≠ "" ∨ e ≠ "")
    (session : Session ω) (hs : session.requester = doRequest P)
    (card : Card ω) (hc : card.session = some session)
    (cardId : Int) (cardType aliasName lastFour : String) (address : Option Address) (w : ω) :
    (∃ err, (session.GetBusiness w).1 = .error err) ∧
      (∃ err, (session.GetCards w).1 = .error err) ∧
      (∃ err, (session.GetCard cardId w).1 = .error err) ∧
      (∃ err, (session.NewCard cardType aliasName w).1 = .error err) ∧
      (∃ err, (session.GetTransactions w).1 = .error err) ∧
      (∃ r err, card.Put w = some r ∧ r.ret = .error err) ∧
      (∃ r err, card.Delete w = some r ∧ r.ret = .error err) ∧
      (∃ r err, card.Activate lastFour w = some r ∧ r.ret = .error err) ∧
      (∃ r err, card.Reissue w = some r ∧ r.ret = .error err) ∧
      (∃ r err, card.TurnOn w = some r ∧ r.ret = .error err) ∧
      (∃ r err, card.TurnOff w = some r ∧ r.ret = .error err) ∧
      (∃ r err, card.GetPanAndCvv w = some r ∧ r.ret = .error err) ∧
      (∃ r err, card.GetBillingAddress w = some r ∧ r.ret = .error err) ∧
      (∃ r err, card.SetBillingAddress address w = some r ∧ r.ret = .error err) ∧
      (∃ r err, card.UpdateBillingAddress address w = some r ∧ r.ret = .error err) := by
  have key : ∀ method endpoint args, ∃ err w1,
      session.requester session.toSessionData method endpoint args w = (.error err, w1) := by
    intro method endpoint args
    rw [hs]
    exact doRequest_business_error P b m e hP hdec hne _ method endpoint args w
  refine ⟨?_, ?_, ?_, ?_, ?_, ?_, ?_, ?_, ?_, ?_, ?_, ?_, ?_, ?_, ?_⟩
  · obtain ⟨err, w1, h⟩ := key "GET" "/businesses/me" .nil
    exact ⟨err, by simp [Session.GetBusiness, h, decodeReply]⟩
  · obtain ⟨err, w1, h⟩ := key "GET" "/cards" .nil
    exact ⟨err, by simp [Session.GetCards, h, decodeReply]⟩
  · obtain ⟨err, w1, h⟩ := key "GET" ("/cards/" ++ toString cardId) .nil
    exact ⟨err, by simp [Session.GetCard, h, decodeReply]⟩
  · obtain ⟨err, w1, h⟩ := key "POST" "/cards" (newCardArgs cardType aliasName)
    exact ⟨err, by simp [Session.NewCard, h, decodeReply]⟩
  · obtain ⟨err, w1, h⟩ := key "GET" "/transactions" .nil
    exact ⟨err, by simp [Session.GetTransactions, h, decodeReply]⟩
  · obtain ⟨err, w1, h⟩ := key "PUT" ("/cards/" ++ toString card.CardId) (.card card.toCardFields)
    exact ⟨_, err, Card.request_error card session hc _ _ _ w w1 err h, rfl⟩
  · obtain ⟨err, w1, h⟩ := key "DELETE" ("/cards/" ++ toString card.CardId) .nil
    exact ⟨_, err, Card.request_error card session hc _ _ _ w w1 err h, rfl⟩
  · obtain ⟨err, w1, h⟩ := key "POST"
      ("/cards/" ++ toString (card.setLastFour lastFour).CardId ++ "/activation")
      (.card (card.setLastFour lastFour).toCardFields)
    exact ⟨_, err, Card.request_error (card.setLastFour lastFour) session hc _ _ _ w w1 err h, rfl⟩
  · obtain ⟨err, w1, h⟩ := key "POST" ("/cards/" ++ toString card.CardId ++ "/reissue") .nil
    exact ⟨_, err, Card.request_error card session hc _ _ _ w w1 err h, rfl⟩
  · obtain ⟨err, w1, h⟩ := key "PUT"
      ("/cards/" ++ toString (card.setStatus STATUS_TURNED_ON).CardId)
      (.card (card.setStatus STATUS_TURNED_ON).toCardFields)
    have hput : (card.setStatus STATUS_TURNED_ON).Put w = _ :=
      Card.request_error (card.setStatus STATUS_TURNED_ON) session hc _ _ _ w w1 err h
    exact ⟨⟨.error err, card.setStatus STATUS_TURNED_ON, w1⟩, err,
      by simp only [Card.TurnOn, hput], rfl⟩
  · obtain ⟨err, w1, h⟩ := key "PUT"
      ("/cards/" ++ toString (card.setStatus STATUS_TURNED_OFF).CardId)
      (.card (card.setStatus STATUS_TURNED_OFF).toCardFields)
    have hput : (card.setStatus STATUS_TURNED_OFF).Put w = _ :=
      Card.request_error (card.setStatus STATUS_TURNED_OFF) session hc _ _ _ w w1 err h
    exact ⟨⟨.error err, card.setStatus STATUS_TURNED_OFF, w1⟩, err,
      by simp only [Card.TurnOff, hput], rfl⟩
  · obtain ⟨err, w1, h⟩ := key "GET" ("/cards/" ++ toString card.CardId ++ "/pan") .nil
    exact ⟨_, err, Card.fetch_error card session hc _ _ _ _ _ w w1 err h, rfl⟩
  · obtain ⟨err, w1, h⟩ := key "GET" ("/cards/" ++ toString card.CardId ++ "/billingAddress") .nil
    exact ⟨_, err, Card.fetch_error card session hc _ _ _ _ _ w w1 err h, rfl⟩
  · obtain ⟨err, w1, h⟩ := key "POST" ("/cards/" ++ toString card.CardId ++ "/billingAddress")
      (.address address)
    exact ⟨_, err, Card.fetch_error card session hc _ _ _ _ _ w w1 err h, rfl⟩
  · obtain ⟨err, w1, h⟩ := key "PUT" ("/cards/" ++ toString card.CardId ++ "/billingAddress")
      (.address address)
    exact ⟨_, err, Card.fetch_error card session hc _ _ _ _ _ w w1 err h, rfl⟩

theorem operations_fail_on_business_error_witness :
    (∀ (req : HttpRequest) (w : Unit), ∃ header w1,
        (stubPlatform ⟨[], .ok sampleBusinessError⟩).clientDo req w
          = (.ok ⟨header, .ok sampleBusinessError⟩, w1)) ∧
      json.Unmarshal decBentoError sampleBusinessError {} = (⟨"boom", ""⟩, none) ∧
      ("boom" ≠ "" ∨ "" ≠ "") ∧
      envelopeSession.requester = doRequest (stubPlatform ⟨[], .ok sampleBusinessError⟩) ∧
      (Card.setSession {} (some envelopeSession)).session = some envelopeSession ∧
      (∃ err, (envelopeSession.GetBusiness ()).1 = .error err) :=
  ⟨fun _ _ => ⟨[], (), rfl⟩, by decide, by decide, rfl, rfl,
    (operations_fail_on_business_error (stubPlatform ⟨[], .ok sampleBusinessError⟩)
      sampleBusinessError "boom" "" (fun _ _ => ⟨[], (), rfl⟩) (by decide) (by decide)
      envelopeSession rfl (Card.setSession {} (some envelopeSession)) rfl 0 "" "" "" none ()).1⟩

/-- C3 as stated fails: on a transport that hands the business-error envelope
back with no error, `GetBusiness` returns the empty `Business` and no error. -/
theorem getBusiness_downgrades_business_error :
    checkError sampleBusinessError = some (.bento ⟨"boom", ""⟩) ∧
      (cannedSession sampleBusinessError).GetBusiness () = (.ok {}, ()) :=
  ⟨by decide, rfl⟩

/-! ## Turning a card on and off -/

@[simp]
theorem Card.setStatus_session {σ : Type} (card : Card σ) (status : String) :
    (card.setStatus status).session = card.session := rfl

@[simp]
theorem Card.setStatus_CardId {σ : Type} (card : Card σ) (status : String) :
    (card.setStatus status).CardId = card.CardId := rfl

@[simp]
theorem Card.setLastFour_session {σ : Type} (card : Card σ) (lastFour : String) :
    (card.setLastFour lastFour).session = card.session := rfl

@[simp]
theorem Card.setLastFour_CardId {σ : Type} (card : Card σ) (lastFour : String) :
    (card.setLastFour lastFour).CardId = card.CardId := rfl

@[simp]
theorem Card.setSession_session {σ : Type} (card : Card σ) (session : Option (Session σ)) :
    (card.setSession session).session = session := rfl

@[simp]
theorem Card.setSession_toCardFields {σ : Type} (card : Card σ)
    (session : Option (Session σ)) :
    (card.setSession session).toCardFields = card.toCardFields := rfl

/-- A card request whose transport answers with bytes that decode into a card
returns that card, with the session of the receiver. -/
theorem Card.request_ok {σ : Type} (card : Card σ) (session : Session σ)
    (hc : card.session = some session) (method endpoint : String) (args : Args) (w w1 : σ)
    (bs : String) (resp : Card σ)
    (h : session.requester session.toSessionData method endpoint args w = (.ok bs, w1))
    (hdec : json.Unmarshal decCard bs {} = (resp, none)) :
    card.request method endpoint args w = some ⟨.ok (resp.setSession card.session), card, w1⟩ := by
  simp [Card.request, hc, h, decodeReply, hdec]

/-- C4. `TurnOn` and `TurnOff` check the status the server echoes: when the
reply to the update `PUT /cards/{id}` decodes to a card whose status is not the
requested one, the method returns no card and fails with the unexpected-state
error; when the status is the requested one it returns the card of the server
with no error. -/
theorem turnOn_turnOff_check {σ : Type} (card : Card σ) (session : Session σ) (w w1 : σ)
    (bs : String) (resp : Card σ) (hc : card.session = some session)
    (hdec : json.Unmarshal decCard bs {} = (resp, none)) :
    (session.requester session.toSessionData "PUT" ("/cards/" ++ toString card.CardId)
          (.card (card.setStatus "TURNED_ON").toCardFields) w = (.ok bs, w1) →
        ∃ r, card.TurnOn w = some r ∧ r.world = w1 ∧
          (resp.Status ≠ "TURNED_ON" → r.ret = .error (.errorString
            ("Bento returned success for turn on, but card's status is: " ++ resp.Status))) ∧
          (resp.Status = "TURNED_ON" → r.ret = .ok (resp.setSession card.session))) ∧
      (session.requester session.toSessionData "PUT" ("/cards/" ++ toString card.CardId)
          (.card (card.setStatus "TURNED_OFF").toCardFields) w = (.ok bs, w1) →
        ∃ r, card.TurnOff w = some r ∧ r.world = w1 ∧
          (resp.Status ≠ "TURNED_OFF" → r.ret = .error (.errorString
            ("Bento returned success for turn off, but card's status is: " ++ resp.Status))) ∧
          (resp.Status = "TURNED_OFF" → r.ret = .ok (resp.setSession card.session))) := by
  constructor
  · intro h
    have hput : (card.setStatus STATUS_TURNED_ON).Put w = _ :=
      Card.request_ok (card.setStatus STATUS_TURNED_ON) session hc _ _ _ w w1 bs resp h hdec
    by_cases hst : resp.Status = "TURNED_ON"
    · refine ⟨⟨.ok (resp.setSession card.session), card.setStatus STATUS_TURNED_ON, w1⟩, ?_, rfl,
        fun hne => absurd hst hne, fun _ => rfl⟩
      simp only [Card.TurnOn, hput]
      simp [STATUS_TURNED_ON, hst]
    · refine ⟨⟨.error (.errorString
          ("Bento returned success for turn on, but card's status is: " ++ resp.Status)),
        card.setStatus STATUS_TURNED_ON, w1⟩, ?_, rfl, fun _ => rfl, fun heq => absurd heq hst⟩
      simp only [Card.TurnOn, hput]
      simp [STATUS_TURNED_ON, hst]
  · intro h
    have hput : (card.setStatus STATUS_TURNED_OFF).Put w = _ :=
      Card.request_ok (card.setStatus STATUS_TURNED_OFF) session hc _ _ _ w w1 bs resp h hdec
    by_cases hst : resp.Status = "TURNED_OFF"
    · refine ⟨⟨.ok (resp.setSession card.session), card.setStatus STATUS_TURNED_OFF, w1⟩, ?_, rfl,
        fun hne => absurd hst hne, fun _ => rfl⟩
      simp only [Card.TurnOff, hput]
      simp [STATUS_TURNED_OFF, hst]
    · refine ⟨⟨.error (.errorString
          ("Bento returned success for turn off, but card's status is: " ++ resp.Status)),
        card.setStatus STATUS_TURNED_OFF, w1⟩, ?_, rfl, fun _ => rfl, fun heq => absurd heq hst⟩
      simp only [Card.TurnOff, hput]
      simp [STATUS_TURNED_OFF, hst]

theorem turnOn_turnOff_check_witness :
    cannedCard.session = some (cannedSession turnedOffReply) ∧
      json.Unmarshal decCard turnedOffReply {} = (({ Status := "TURNED_OFF" } : Card Unit), none) ∧
      (cannedSession turnedOffReply).requester (cannedSession turnedOffReply).toSessionData "PUT"
          ("/cards/" ++ toString cannedCard.CardId)
          (.card (cannedCard.setStatus "TURNED_ON").toCardFields) ()
        = (.ok turnedOffReply, ()) ∧
      (∃ r, cannedCard.TurnOn () = some r ∧ r.ret = .error (.errorString
        "Bento returned success for turn on, but card's status is: TURNED_OFF")) := by
  refine ⟨rfl, rfl, rfl, ?_⟩
  obtain ⟨r, hr, _, hne, _⟩ :=
    (turnOn_turnOff_check cannedCard (cannedSession turnedOffReply) () () turnedOffReply
      { Status := "TURNED_OFF" } rfl rfl).1 rfl
  exact ⟨r, hr, hne (by decide)⟩

/-! ## The receiver of a mutating method -/

/-- C5, as the code has it. `Put` leaves every field of its receiver as it
was. `TurnOn` and `TurnOff` store the requested status in the field `Status` of
the receiver and `Activate` stores its argument in the field `LastFour`, before
the request is sent and whatever the transport answers; they leave the other
fields as they were. -/
theorem receiver_after_call {σ : Type} (card : Card σ) (session : Session σ)
    (hc : card.session = some session) (lastFour : String) (w : σ) :
    (∃ r, card.Put w = some r ∧ r.card = card) ∧
      (∃ r, card.TurnOn w = some r ∧ r.card = card.setStatus "TURNED_ON") ∧
      (∃ r, card.TurnOff w = some r ∧ r.card = card.setStatus "TURNED_OFF") ∧
      (∃ r, card.Activate lastFour w = some r ∧ r.card = card.setLastFour lastFour) := by
  have req : ∀ (c : Card σ), c.session = some session → ∀ method endpoint args,
      ∃ r, c.request method endpoint args w = some r ∧ r.card = c := by
    intro c hs method endpoint args
    simp only [Card.request, hs]
    split <;> exact ⟨_, rfl, rfl⟩
  refine ⟨req card hc _ _ _, ?_, ?_, req (card.setLastFour lastFour) hc _ _ _⟩
  · obtain ⟨r, hr, hcard⟩ := req (card.setStatus STATUS_TURNED_ON) hc "PUT"
      ("/cards/" ++ toString (card.setStatus STATUS_TURNED_ON).CardId)
      (.card (card.setStatus STATUS_TURNED_ON).toCardFields)
    have hput : (card.setStatus STATUS_TURNED_ON).Put w = some r := hr
    obtain ⟨ret, receiver, w1⟩ := r
    cases hcard
    simp only [Card.TurnOn, hput]
    cases ret with
    | error err => exact ⟨_, rfl, rfl⟩
    | ok resp =>
      simp only
      split <;> exact ⟨_, rfl, rfl⟩
  · obtain ⟨r, hr, hcard⟩ := req (card.setStatus STATUS_TURNED_OFF) hc "PUT"
      ("/cards/" ++ toString (card.setStatus STATUS_TURNED_OFF).CardId)
      (.card (card.setStatus STATUS_TURNED_OFF).toCardFields)
    have hput : (card.setStatus STATUS_TURNED_OFF).Put w = some r := hr
    obtain ⟨ret, receiver, w1⟩ := r
    cases hcard
    simp only [Card.TurnOff, hput]
    cases ret with
    | error err => exact ⟨_, rfl, rfl⟩
    | ok resp =>
      simp only
      split <;> exact ⟨_, rfl, rfl⟩

theorem receiver_after_call_witness :
    failingCard.session = some failingSession ∧
      (∃ r, failingCard.Put {} = some r ∧ r.card = failingCard) ∧
      (∃ r, failingCard.TurnOn {} = some r ∧ r.card = failingCard.setStatus "TURNED_ON") :=
  ⟨rfl, (receiver_after_call failingCard failingSession rfl "9999" {}).1,
    (receiver_after_call failingCard failingSession rfl "9999" {}).2.1⟩

/-- C5 as stated fails: after `TurnOn` the field `Status` of the receiver, and
after `Activate` its field `LastFour`, is not what it was before the call. -/
theorem receiver_is_mutated :
    failingCard.Status = "TURNED_OFF" ∧
      (failingCard.TurnOn {}).map (fun r => r.card.Status) = some "TURNED_ON" ∧
      failingCard.LastFour = "1234" ∧
      (failingCard.Activate "9999" {}).map (fun r => r.card.LastFour) = some "9999" :=
  ⟨rfl, rfl, rfl, rfl⟩

/-! ## Bootstrap -/

/-- An object with a member `name` whose value is a number does not decode into
the `ApiApplication` shape. -/
theorem decApiApplication_name_number (ms : List (String × JSON)) (lit : String)
    (hmem : ("name", JSON.num lit) ∈ ms) (a : ApiApplication) :
    (json.decMembers ApiApplication.fields ms a).2 ≠ none :=
  json.decMembers_fails ApiApplication.fields ms a "name" (.num lit)
    (json.field "name" (fun x => x.Name) (fun x v => { x with Name := v })
      (json.decString "string"))
    hmem rfl (fun x => by simp [json.field, json.decString])

/-- What `getSession` returns once the response has come. -/
theorem getSession_eq {ω : Type} (P : Platform ω) (apiUri accessKey secretKey : String)
    (w w1 : ω) (bs : String) (req : HttpRequest) (resp : HttpResponse)
    (hm : P.marshal (.map [("accessKey", .string accessKey), ("secretKey", .string secretKey)])
      = .ok bs)
    (hn : P.newRequest "POST" (apiUri ++ "/sessions") (some bs) = .ok req)
    (hd : P.clientDo ((req.addHeader "Content-Type" "application\\json").addHeader "Accept" "*/*") w
      = (.ok resp, w1)) :
    getSession P apiUri accessKey secretKey w = (sessionOfResponse P apiUri resp, w1) := by
  simp only [getSession, hm, hn, hd]

/-- C6, as the code has it. Bootstrap success: when the response has an
`Authorization` header and its body decodes without error into the
`ApiApplication` shape, `getSession` returns a session with no error, and the
token the session stores is the first value of that header. When the body is
valid JSON and its decoding into the `ApiApplication` shape gives an error,
`getSession` returns no session and fails with the "Error unmarshalling" error
made of that error; so it does when the body is a JSON array, and when it is
an object with a member `name` whose value is a number. -/
theorem getSession_success {ω : Type} (P : Platform ω) (apiUri accessKey secretKey : String)
    (w w1 : ω) (bs : String) (req : HttpRequest) (header : List (String × List String))
    (body token : String) (more : List String)
    (hm : P.marshal (.map [("accessKey", .string accessKey), ("secretKey", .string secretKey)])
      = .ok bs)
    (hn : P.newRequest "POST" (apiUri ++ "/sessions") (some bs) = .ok req)
    (hd : P.clientDo ((req.addHeader "Content-Type" "application\\json").addHeader "Accept" "*/*") w
      = (.ok ⟨header, .ok body⟩, w1))
    (hauth : lookupHeader header "Authorization" = some (token :: more)) :
    (∀ app, json.Unmarshal decApiApplication body {} = (app, none) →
        getSession P apiUri accessKey secretKey w =
          (some (.ok
            { apiUri := apiUri, authorization := token, logger := .discard,
              requester := doRequest P }), w1)) ∧
      (∀ app err, json.Valid body = true →
        json.Unmarshal decApiApplication body {} = (app, some err) →
        getSession P apiUri accessKey secretKey w = (some (.error (.unmarshalling err)), w1)) ∧
      (∀ js, parse body = some (.arr js) →
        getSession P apiUri accessKey secretKey w =
          (some (.error (.unmarshalling (.type "array" "bento.ApiApplication"))), w1)) ∧
      (∀ ms lit, parse body = some (.obj ms) → ("name", JSON.num lit) ∈ ms →
        ∃ err, getSession P apiUri accessKey secretKey w
          = (some (.error (.unmarshalling err)), w1)) := by
  rw [getSession_eq P apiUri accessKey secretKey w w1 bs req _ hm hn hd]
  have hfail : ∀ app err, json.Valid body = true →
      json.Unmarshal decApiApplication body {} = (app, some err) →
      (sessionOfResponse P apiUri ⟨header, .ok body⟩, w1)
        = (some (.error (.unmarshalling err)), w1) := by
    intro app err hv hdec
    simp [sessionOfResponse, hv, hauth, hdec]
  refine ⟨?_, hfail, ?_, ?_⟩
  · intro app hdec
    simp [sessionOfResponse, json.valid_of_unmarshal _ _ _ _ hdec, hauth, hdec]
  · intro js hp
    exact hfail {} _ (by simp [json.Valid, hp])
      (by simp only [json.Unmarshal, hp]; rfl)
  · intro ms lit hp hmem
    have hbad := decApiApplication_name_number ms lit hmem {}
    obtain ⟨err, herr⟩ := Option.ne_none_iff_exists'.mp hbad
    refine ⟨err, hfail (json.decMembers ApiApplication.fields ms {}).1 err
      (by simp [json.Valid, hp]) ?_⟩
    simp only [json.Unmarshal, hp, decApiApplication, json.decStruct]
    exact Prod.ext rfl herr

theorem getSession_success_witness :
    (stubPlatform (tokenResponse "\x7b\"name\":\"app\"\x7d")).marshal
        (.map [("accessKey", .string "ak"), ("secretKey", .string "sk")]) = .ok "" ∧
      (stubPlatform (tokenResponse "\x7b\"name\":\"app\"\x7d")).newRequest "POST"
        (sandboxUri ++ "/sessions") (some "") = .ok ⟨"POST", sandboxUri ++ "/sessions", [], some ""⟩ ∧
      lookupHeader (tokenResponse "\x7b\"name\":\"app\"\x7d").header "Authorization"
        = some ["token-1"] ∧
      json.Unmarshal decApiApplication "\x7b\"name\":\"app\"\x7d" {} = ({ Name := "app" }, none) ∧
      getSession (stubPlatform (tokenResponse "\x7b\"name\":\"app\"\x7d")) sandboxUri "ak" "sk" ()
        = (some (.ok
            { apiUri := sandboxUri, authorization := "token-1", logger := .discard,
              requester := doRequest (stubPlatform (tokenResponse "\x7b\"name\":\"app\"\x7d")) }),
          ()) ∧
      json.Valid "\x7b\"accessKey\":[]\x7d" = true ∧
      json.Unmarshal decApiApplication "\x7b\"accessKey\":[]\x7d" {}
        = ({}, some (.type "array" "string")) ∧
      getSession (stubPlatform (tokenResponse "\x7b\"accessKey\":[]\x7d")) sandboxUri "ak" "sk" ()
        = (some (.error (.unmarshalling (.type "array" "string"))), ()) :=
  ⟨rfl, rfl, rfl, by decide,
    (getSession_success (stubPlatform (tokenResponse "\x7b\"name\":\"app\"\x7d")) sandboxUri "ak" "sk"
      () () "" ⟨"POST", sandboxUri ++ "/sessions", [], some ""⟩ _ "\x7b\"name\":\"app\"\x7d"
      "token-1" [] rfl rfl rfl rfl).1 { Name := "app" } (by decide),
    by decide, by decide,
    (getSession_success (stubPlatform (tokenResponse "\x7b\"accessKey\":[]\x7d")) sandboxUri "ak" "sk"
      () () "" ⟨"POST", sandboxUri ++ "/sessions", [], some ""⟩ _ "\x7b\"accessKey\":[]\x7d"
      "token-1" [] rfl rfl rfl rfl).2.1 {} (.type "array" "string") (by decide) (by decide)⟩

/-- C6 as stated fails: with an `Authorization` header and a body that is valid
JSON but does not fit the `ApiApplication` shape, a JSON array or an object
whose `name` is a number, `getSession` returns no session and fails. -/
theorem getSession_rejects_other_shapes :
    json.Valid "[]" = true ∧
      lookupHeader (tokenResponse "[]").header "Authorization" = some ["token-1"] ∧
      getSession (stubPlatform (tokenResponse "[]")) sandboxUri "ak" "sk" ()
        = (some (.error (.unmarshalling (.type "array" "bento.ApiApplication"))), ()) ∧
      json.Valid "\x7b\"name\":5\x7d" = true ∧
      getSession (stubPlatform (tokenResponse "\x7b\"name\":5\x7d")) sandboxUri "ak" "sk" ()
        = (some (.error (.unmarshalling (.type "number" "string"))), ()) :=
  ⟨by decide, rfl, rfl, by decide, rfl⟩

/-- C7, as the code has it. Bootstrap without token: when the response has no
`Authorization` header and its body is valid JSON, `getSession` returns no
session and fails with the missing-token error; when the body is not valid
JSON it returns no session and fails with the invalid-JSON error, the check
that comes first. -/
theorem getSession_missing_token {ω : Type} (P : Platform ω)
    (apiUri accessKey secretKey : String) (w w1 : ω) (bs : String) (req : HttpRequest)
    (header : List (String × List String)) (body : String)
    (hm : P.marshal (.map [("accessKey", .string accessKey), ("secretKey", .string secretKey)])
      = .ok bs)
    (hn : P.newRequest "POST" (apiUri ++ "/sessions") (some bs) = .ok req)
    (hd : P.clientDo ((req.addHeader "Content-Type" "application\\json").addHeader "Accept" "*/*") w
      = (.ok ⟨header, .ok body⟩, w1))
    (hauth : lookupHeader header "Authorization" = none) :
    (json.Valid body = true →
        getSession P apiUri accessKey secretKey w =
          (some (.error (.errorString "Server did not return an authorization token.")), w1)) ∧
      (json.Valid body = false →
        getSession P apiUri accessKey secretKey w =
          (some (.error (.errorString ("Invalid json response: [" ++ body ++ "]"))), w1)) := by
  rw [getSession_eq P apiUri accessKey secretKey w w1 bs req _ hm hn hd]
  constructor <;> intro hv <;> simp [sessionOfResponse, hv, hauth]

theorem getSession_missing_token_witness :
    (stubPlatform (bareResponse "\x7b\x7d")).marshal
        (.map [("accessKey", .string "ak"), ("secretKey", .string "sk")]) = .ok "" ∧
      (stubPlatform (bareResponse "\x7b\x7d")).newRequest "POST" (sandboxUri ++ "/sessions")
        (some "") = .ok ⟨"POST", sandboxUri ++ "/sessions", [], some ""⟩ ∧
      lookupHeader (bareResponse "\x7b\x7d").header "Authorization" = none ∧
      json.Valid "\x7b\x7d" = true ∧
      getSession (stubPlatform (bareResponse "\x7b\x7d")) sandboxUri "ak" "sk" ()
        = (some (.error (.errorString "Server did not return an authorization token.")), ()) :=
  ⟨rfl, rfl, rfl, by decide,
    (getSession_missing_token (stubPlatform (bareResponse "\x7b\x7d")) sandboxUri "ak" "sk" () ()
      "" ⟨"POST", sandboxUri ++ "/sessions", [], some ""⟩ _ "\x7b\x7d" rfl rfl rfl rfl).1
      (by decide)⟩

/-- C7 as stated fails: a response with no `Authorization` header whose body is
not valid JSON fails with the invalid-JSON error, not the missing-token one. -/
theorem getSession_checks_json_first :
    lookupHeader (bareResponse "<html>500 Error</html>").header "Authorization" = none ∧
      getSession (stubPlatform (bareResponse "<html>500 Error</html>")) sandboxUri "ak" "sk" ()
        = (some (.error (.errorString "Invalid json response: [<html>500 Error</html>]")), ()) ∧
      GoError.errorString "Invalid json response: [<html>500 Error</html>]"
        ≠ .errorString "Server did not return an authorization token." :=
  ⟨rfl, rfl, by decide⟩

/-! ## The error classifier: payloads that are not errors -/

set_option maxRecDepth 100000 in
theorem checkError_sampleCard : checkError SampleCard = none := by decide

set_option maxRecDepth 100000 in
theorem checkError_sampleBusiness : checkError SampleBusiness = none := by decide

/-- C8. Error classifier, empty case: when the bytes decode into the
`BentoError` shape with `message` and `error` both empty, `checkError` returns
nil. So it does for an object each of whose members either goes to no field of
`BentoError` (an unknown member, whatever its value) or is an empty string or
null: for `{}`, for the sample card and for the sample business. -/
theorem checkError_empty :
    (∀ bs, json.Unmarshal decBentoError bs {} = (⟨"", ""⟩, none) → checkError bs = none) ∧
      (∀ bs ms, parse bs = some (.obj ms) →
        (∀ kv ∈ ms, (json.findField BentoError.fields kv.1).isSome = true →
          kv.2 = .str "" ∨ kv.2 = .null) →
        checkError bs = none) ∧
      checkError "\x7b\x7d" = none ∧
      checkError SampleCard = none ∧
      checkError SampleBusiness = none := by
  refine ⟨?_, ?_, by decide, checkError_sampleCard, checkError_sampleBusiness⟩
  · intro bs hdec
    rw [checkError_eq, hdec]
    simp
  · intro bs ms hp h
    rw [checkError_eq, unmarshal_object bs ms hp, decMembers_empty ms h]
    simp

theorem checkError_empty_witness :
    parse "\x7b\"cardId\":12345,\"message\":\"\",\"error\":null\x7d"
        = some (.obj [("cardId", .num "12345"), ("message", .str ""), ("error", .null)]) ∧
      checkError "\x7b\"cardId\":12345,\"message\":\"\",\"error\":null\x7d" = none :=
  ⟨rfl, checkError_empty.2.1 _
    [("cardId", .num "12345"), ("message", .str ""), ("error", .null)] rfl (by
    intro kv hkv
    simp only [List.mem_cons, List.mem_singleton, List.not_mem_nil, or_false] at hkv
    rcases hkv with rfl | rfl | rfl
    · intro h
      exact absurd h (by decide)
    · exact fun _ => Or.inl rfl
    · exact fun _ => Or.inr rfl)⟩

/-! ## The error classifier: bytes that do not decode -/

/-- C9, as the code has it. Error classifier, structural-failure case: when
the decoding into the `BentoError` shape fails, `checkError` returns nil. The
decoding fails for every text that is not JSON, for every JSON document whose
top-level value is an array, a string, a number or a boolean, and for every
JSON object with a member `message` or `error` that is neither a string nor
null, whatever the other members are. -/
theorem checkError_structural_failure :
    (∀ bs, (json.Unmarshal decBentoError bs {}).2 ≠ none → checkError bs = none) ∧
      (∀ bs, json.Valid bs = false → checkError bs = none) ∧
      (∀ bs j, parse bs = some j → (∀ ms, j ≠ .obj ms) → j ≠ .null → checkError bs = none) ∧
      (∀ bs ms k v, parse bs = some (.obj ms) → (k, v) ∈ ms → (k = "message" ∨ k = "error") →
        (∀ s, v ≠ .str s) → v ≠ .null → checkError bs = none) := by
  have fails : ∀ bs, (json.Unmarshal decBentoError bs {}).2 ≠ none → checkError bs = none := by
    intro bs h
    rw [checkError_eq]
    split
    · rfl
    · rename_i heq
      rw [heq] at h
      exact absurd rfl h
  refine ⟨fails, ?_, ?_, ?_⟩
  · intro bs hv
    apply fails
    unfold json.Valid at hv
    cases hp : parse bs
    · simp [json.Unmarshal, hp]
    · simp [hp] at hv
  · intro bs j hp hobj hnull
    apply fails
    cases j with
    | null => exact absurd rfl hnull
    | obj ms => exact absurd rfl (hobj ms)
    | bool _ => simp [json.Unmarshal, hp, decBentoError, json.decStruct]
    | num _ => simp [json.Unmarshal, hp, decBentoError, json.decStruct]
    | str _ => simp [json.Unmarshal, hp, decBentoError, json.decStruct]
    | arr _ => simp [json.Unmarshal, hp, decBentoError, json.decStruct]
  · intro bs ms k v hp hmem hk hstr hnull
    apply fails
    rw [unmarshal_object bs ms hp]
    apply decMembers_bad ms {} k v hmem _ hnull hstr
    rcases hk with rfl | rfl <;> decide

theorem checkError_structural_failure_witness :
    parse "\x7b\"message\":5,\"error\":\"boom\"\x7d"
        = some (.obj [("message", .num "5"), ("error", .str "boom")]) ∧
      checkError "\x7b\"message\":5,\"error\":\"boom\"\x7d" = none ∧
      checkError "<html>500 Error</html>" = none ∧
      checkError "[\x7b\"message\":\"boom\"\x7d]" = none :=
  ⟨rfl,
    checkError_structural_failure.2.2.2 _ [("message", .num "5"), ("error", .str "boom")]
      "message" (.num "5") rfl (by simp) (Or.inl rfl) (by simp) (by simp),
    checkError_structural_failure.2.1 _ (by decide),
    checkError_structural_failure.2.2.1 _ (.arr [.obj [("message", .str "boom")]]) rfl (by simp)
      (by simp)⟩

/-- C9 as stated fails: in this object the member `message` is present and is
not a string, it is null, the other member is a non-empty string, and
`checkError` does not return nil. -/
theorem checkError_null_member :
    parse "\x7b\"message\":null,\"error\":\"boom\"\x7d"
        = some (.obj [("message", .null), ("error", .str "boom")]) ∧
      checkError "\x7b\"message\":null,\"error\":\"boom\"\x7d" = some (.bento ⟨"", "boom"⟩) :=
  ⟨rfl, by decide⟩

/-! ## Creating a card -/

set_option maxRecDepth 100000 in
set_option exponentiation.threshold 2000 in
theorem unmarshal_sampleCard :
    json.Unmarshal decCardFields SampleCard {} = (sampleCardFields, none) := by decide

theorem unmarshal_card {σ : Type} (bs : String) (c : Card σ) :
    json.Unmarshal decCard bs c =
      (⟨(json.Unmarshal decCardFields bs c.toCardFields).1, c.session⟩,
        (json.Unmarshal decCardFields bs c.toCardFields).2) := by
  unfold json.Unmarshal
  cases parse bs <;> rfl

/-- C10. `NewCard` calls the transport once, with method `POST`, path
`/cards` and a payload whose members are `type`, the card type, `alias`, the
alias, `virtualCard`, false, and `lastFour`, the placeholder 3215; when the
transport answers with bytes that decode into a card, it returns that card
with no error, its session being the calling session. -/
theorem newCard_request_and_result {σ : Type} (session : Session σ)
    (cardType aliasName : String) (w w1 : σ) (bs : String) (resp : Card σ)
    (h : session.requester session.toSessionData "POST" "/cards"
        (.map [("type", .string cardType), ("alias", .string aliasName),
          ("virtualCard", .bool false), ("lastFour", .int 3215)]) w = (.ok bs, w1))
    (hdec : json.Unmarshal decCard bs {} = (resp, none)) :
    session.NewCard cardType aliasName w = (.ok (resp.setSession (some session)), w1) ∧
      (resp.setSession (some session)).session = some session ∧
      (session.traced.NewCard cardType aliasName (w, [])).2 =
        (w1, [⟨"POST", "/cards",
          .map [("type", .string cardType), ("alias", .string aliasName),
            ("virtualCard", .bool false), ("lastFour", .int 3215)]⟩]) := by
  refine ⟨?_, rfl, ?_⟩
  · simp [Session.NewCard, newCardArgs, h, decodeReply, hdec]
  · simp only [Session.NewCard, newCardArgs, Session.traced, Requester.traced, h]
    split <;> rfl

theorem newCard_request_and_result_witness :
    recordingSession.requester recordingSession.toSessionData "POST" "/cards"
        (.map [("type", .string EMPLOYEE_CARD), ("alias", .string "Testing Card"),
          ("virtualCard", .bool false), ("lastFour", .int 3215)]) {}
        = (.ok SampleCard,
          ⟨"POST", "/cards", newCardArgs EMPLOYEE_CARD "Testing Card"⟩) ∧
      json.Unmarshal decCard SampleCard {} = ((⟨sampleCardFields, none⟩ : Card TestSession), none) ∧
      recordingSession.NewCard EMPLOYEE_CARD "Testing Card" {}
        = (.ok ⟨sampleCardFields, some recordingSession⟩,
          ⟨"POST", "/cards", newCardArgs EMPLOYEE_CARD "Testing Card"⟩) := by
  have hdec : json.Unmarshal decCard SampleCard {}
      = ((⟨sampleCardFields, none⟩ : Card TestSession), none) := by
    rw [unmarshal_card]
    exact congrArg (fun r => ((⟨r.1, none⟩ : Card TestSession), r.2)) unmarshal_sampleCard
  exact ⟨rfl, hdec,
    (newCard_request_and_result recordingSession EMPLOYEE_CARD "Testing Card" {}
      ⟨"POST", "/cards", newCardArgs EMPLOYEE_CARD "Testing Card"⟩ SampleCard
      (⟨sampleCardFields, none⟩ : Card TestSession) rfl hdec).1⟩

/-! ## Listing the cards -/

theorem json.parse_eq_elemsOf (data : String) (h : json.isArray data = true) :
    parse data = some (.arr (json.elemsOf data)) := by
  unfold json.isArray at h
  unfold json.elemsOf
  split at h
  · rename_i js hp
    rw [hp]
  · cases h

/-- An array whose elements all decode without error decodes into a nil
slice, element by element and in order, into the slice of the decoded values. -/
theorem json.decElems_ok {α : Type} (d : json.Dec α) (zero : α) (js : List JSON)
    (h : ∀ j ∈ js, (d j zero).2 = none) :
    json.decElems d zero js [] = (js.map fun j => (d j zero).1, none) := by
  induction js with
  | nil => rfl
  | cons j rest ih =>
    have hj := h j (List.mem_cons_self _ _)
    have hrest := ih fun x hx => h x (List.mem_cons_of_mem _ hx)
    simp [json.decElems, hj, hrest, json.first]

/-- C11. `GetCards` result shape: when the transport answers `GET /cards`
with a JSON array of `n` elements each of which decodes into a card, `GetCards`
returns with no error exactly `n` cards, in the order of the array, each the
decoding of the element at its place, and each with the calling session as its
session. -/
theorem getCards_result_shape {σ : Type} (session : Session σ) (w w1 : σ) (bs : String)
    (js : List JSON)
    (h : session.requester session.toSessionData "GET" "/cards" .nil w = (.ok bs, w1))
    (hp : parse bs = some (.arr js))
    (hcards : ∀ j ∈ js, (decCardFields j {}).2 = none) :
    ∃ cards, session.GetCards w = (.ok cards, w1) ∧
      cards.length = js.length ∧
      cards = js.map (fun j => ⟨(decCardFields j {}).1, some session⟩) ∧
      ∀ c ∈ cards, c.session = some session := by
  refine ⟨js.map (fun j => ⟨(decCardFields j {}).1, some session⟩), ?_, by simp, rfl, ?_⟩
  · have hel : json.decElems (decCard : json.Dec (Card σ)) {} js []
        = (js.map fun j => (decCard j {}).1, none) :=
      json.decElems_ok decCard {} js fun j hj => hcards j hj
    simp only [Session.GetCards, h, decodeReply, json.Unmarshal, hp, json.decSlice,
      List.append_nil, hel, List.map_map]
    rfl
  · intro c hc
    obtain ⟨j, _, rfl⟩ := List.mem_map.mp hc
    rfl

theorem sampleCards_isArray : json.isArray sampleCards = true := by decide!

set_option exponentiation.threshold 2000 in
theorem sampleCards_decode :
    (json.elemsOf sampleCards).map (fun j => decCardFields j {})
      = [(sampleCardFields, none), (sampleCardFields, none)] := by decide!

theorem getCards_result_shape_witness :
    testSession.requester testSession.toSessionData "GET" "/cards" .nil {}
        = (.ok sampleCards, {}) ∧
      parse sampleCards = some (.arr (json.elemsOf sampleCards)) ∧
      (∀ j ∈ json.elemsOf sampleCards, (decCardFields j {}).2 = none) ∧
      ∃ cards, testSession.GetCards {} = (.ok cards, {}) ∧ cards.length = 2 ∧
        cards = [⟨sampleCardFields, some testSession⟩, ⟨sampleCardFields, some testSession⟩] := by
  have hp := json.parse_eq_elemsOf sampleCards sampleCards_isArray
  have hdec := sampleCards_decode
  have hcards : ∀ j ∈ json.elemsOf sampleCards, (decCardFields j {}).2 = none := by
    intro j hj
    have hmem : decCardFields j {} ∈ (json.elemsOf sampleCards).map (fun j => decCardFields j {}) :=
      List.mem_map.mpr ⟨j, hj, rfl⟩
    rw [hdec] at hmem
    simp only [List.mem_cons, List.mem_singleton, List.not_mem_nil, or_false, or_self] at hmem
    rw [hmem]
  obtain ⟨cards, hget, hlen, hmap, _⟩ :=
    getCards_result_shape testSession {} {} sampleCards (json.elemsOf sampleCards) rfl hp hcards
  have hfields : (json.elemsOf sampleCards).map (fun j => (decCardFields j {}).1)
      = [sampleCardFields, sampleCardFields] := by
    have := congrArg (List.map Prod.fst) hdec
    simpa [List.map_map, Function.comp] using this
  have hcardsEq : cards
      = [⟨sampleCardFields, some testSession⟩, ⟨sampleCardFields, some testSession⟩] := by
    rw [hmap]
    have := congrArg (List.map fun f => (⟨f, some testSession⟩ : Card TestSession)) hfields
    simpa [List.map_map, Function.comp] using this
  refine ⟨rfl, hp, hcards, cards, hget, ?_, hcardsEq⟩
  rw [hcardsEq]
  rfl

/-! ## Reading the business -/

/-- A field of a struct is decoded from its like-named members and from them
only: when the decoders of the other fields leave it alone, what it holds after
the decoding of an object is what the decoder of its type makes of the
like-named members, in document order. -/
theorem json.decMembers_get {α β : Type} (fs : List (json.Field α)) (name : String)
    (get : α → β) (d : json.Dec β)
    (hown : ∀ f ∈ fs, f.name = name → ∀ j a, get (f.dec j a).1 = (d j (get a)).1)
    (hother : ∀ f ∈ fs, f.name ≠ name → ∀ j a, get (f.dec j a).1 = get a)
    (ms : List (String × JSON)) (a : α) :
    get (json.decMembers fs ms a).1 = json.decAll d (json.likeNamed fs name ms) (get a) := by
  induction ms generalizing a with
  | nil => rfl
  | cons kv rest ih =>
    obtain ⟨k, j⟩ := kv
    unfold json.decMembers
    split
    · rename_i hf
      have hsel : json.selects fs name k = false := by simp [json.selects, hf]
      have hl : json.likeNamed fs name ((k, j) :: rest) = json.likeNamed fs name rest := by
        simp [json.likeNamed, List.filter_cons, hsel]
      rw [hl]
      exact ih a
    · rename_i f hf
      have hmem := json.findField_mem fs k f hf
      have hih := ih (f.dec j a).1
      by_cases hname : f.name = name
      · have hsel : json.selects fs name k = true := by simp [json.selects, hf, hname]
        have hl : json.likeNamed fs name ((k, j) :: rest)
            = (k, j) :: json.likeNamed fs name rest := by
          simp [json.likeNamed, List.filter_cons, hsel]
        rw [hl, hih, hown f hmem hname j a]
        rfl
      · have hsel : json.selects fs name k = false := by simp [json.selects, hf, hname]
        have hl : json.likeNamed fs name ((k, j) :: rest) = json.likeNamed fs name rest := by
          simp [json.likeNamed, List.filter_cons, hsel]
        rw [hl, hih, hother f hmem hname j a]

theorem Business.get_BusinessId (ms : List (String × JSON)) (a : Business) :
    (json.decMembers Business.fields ms a).1.BusinessId
      = json.decAll (json.decInt "int64") (json.likeNamed Business.fields "businessId" ms) a.BusinessId :=
    json.decMembers_get Business.fields "businessId" (fun x => x.BusinessId) (json.decInt "int64")
      (by
        intro f hf hname j a
        simp only [Business.fields, List.mem_cons, List.mem_singleton, List.not_mem_nil,
          or_false] at hf
        rcases hf with rfl | rfl | rfl | rfl | rfl | rfl | rfl | rfl | rfl | rfl | rfl | rfl | rfl <;>
          first
          | rfl
          | exact absurd hname (by decide))
      (by
        intro f hf hname j a
        simp only [Business.fields, List.mem_cons, List.mem_singleton, List.not_mem_nil,
          or_false] at hf
        rcases hf with rfl | rfl | rfl | rfl | rfl | rfl | rfl | rfl | rfl | rfl | rfl | rfl | rfl <;>
          first
          | exact absurd rfl hname
          | rfl)
      ms a

theorem Business.get_CompanyName (ms : List (String × JSON)) (a : Business) :
    (json.decMembers Business.fields ms a).1.CompanyName
      = json.decAll (json.decString "string") (json.likeNamed Business.fields "companyName" ms) a.CompanyName :=
    json.decMembers_get Business.fields "companyName" (fun x => x.CompanyName) (json.decString "string")
      (by
        intro f hf hname j a
        simp only [Business.fields, List.mem_cons, List.mem_singleton, List.not_mem_nil,
          or_false] at hf
        rcases hf with rfl | rfl | rfl | rfl | rfl | rfl | rfl | rfl | rfl | rfl | rfl | rfl | rfl <;>
          first
          | rfl
          | exact absurd hname (by decide))
      (by
        intro f hf hname j a
        simp only [Business.fields, List.mem_cons, List.mem_singleton, List.not_mem_nil,
          or_false] at hf
        rcases hf with rfl | rfl | rfl | rfl | rfl | rfl | rfl | rfl | rfl | rfl | rfl | rfl | rfl <;>
          first
          | exact absurd rfl hname
          | rfl)
      ms a

theorem Business.get_NameOnCard (ms : List (String × JSON)) (a : Business) :
    (json.decMembers Business.fields ms a).1.NameOnCard
      = json.decAll (json.decString "string") (json.likeNamed Business.fields "nameOnCard" ms) a.NameOnCard :=
    json.decMembers_get Business.fields "nameOnCard" (fun x => x.NameOnCard) (json.decString "string")
      (by
        intro f hf hname j a
        simp only [Business.fields, List.mem_cons, List.mem_singleton, List.not_mem_nil,
          or_false] at hf
        rcases hf with rfl | rfl | rfl | rfl | rfl | rfl | rfl | rfl | rfl | rfl | rfl | rfl | rfl <;>
          first
          | rfl
          | exact absurd hname (by decide))
      (by
        intro f hf hname j a
        simp only [Business.fields, List.mem_cons, List.mem_singleton, List.not_mem_nil,
          or_false] at hf
        rcases hf with rfl | rfl | rfl | rfl | rfl | rfl | rfl | rfl | rfl | rfl | rfl | rfl | rfl <;>
          first
          | exact absurd rfl hname
          | rfl)
      ms a

theorem Business.get_Phone (ms : List (String × JSON)) (a : Business) :
    (json.decMembers Business.fields ms a).1.Phone
      = json.decAll (json.decString "string") (json.likeNamed Business.fields "phone" ms) a.Phone :=
    json.decMembers_get Business.fields "phone" (fun x => x.Phone) (json.decString "string")
      (by
        intro f hf hname j a
        simp only [Business.fields, List.mem_cons, List.mem_singleton, List.not_mem_nil,
          or_false] at hf
        rcases hf with rfl | rfl | rfl | rfl | rfl | rfl | rfl | rfl | rfl | rfl | rfl | rfl | rfl <;>
          first
          | rfl
          | exact absurd hname (by decide))
      (by
        intro f hf hname j a
        simp only [Business.fields, List.mem_cons, List.mem_singleton, List.not_mem_nil,
          or_false] at hf
        rcases hf with rfl | rfl | rfl | rfl | rfl | rfl | rfl | rfl | rfl | rfl | rfl | rfl | rfl <;>
          first
          | exact absurd rfl hname
          | rfl)
      ms a

theorem Business.get_AccountNumber (ms : List (String × JSON)) (a : Business) :
    (json.decMembers Business.fields ms a).1.AccountNumber
      = json.decAll (json.decString "string") (json.likeNamed Business.fields "accountNumber" ms) a.AccountNumber :=
    json.decMembers_get Business.fields "accountNumber" (fun x => x.AccountNumber) (json.decString "string")
      (by
        intro f hf hname j a
        simp only [Business.fields, List.mem_cons, List.mem_singleton, List.not_mem_nil,
          or_false] at hf
        rcases hf with rfl | rfl | rfl | rfl | rfl | rfl | rfl | rfl | rfl | rfl | rfl | rfl | rfl <;>
          first
          | rfl
          | exact absurd hname (by decide))
      (by
        intro f hf hname j a
        simp only [Business.fields, List.mem_cons, List.mem_singleton, List.not_mem_nil,
          or_false] at hf
        rcases hf with rfl | rfl | rfl | rfl | rfl | rfl | rfl | rfl | rfl | rfl | rfl | rfl | rfl <;>
          first
          | exact absurd rfl hname
          | rfl)
      ms a

theorem Business.get_BusinessStructure (ms : List (String × JSON)) (a : Business) :
    (json.decMembers Business.fields ms a).1.BusinessStructure
      = json.decAll (json.decString "string") (json.likeNamed Business.fields "businessStructure" ms) a.BusinessStructure :=
    json.decMembers_get Business.fields "businessStructure" (fun x => x.BusinessStructure) (json.decString "string")
      (by
        intro f hf hname j a
        simp only [Business.fields, List.mem_cons, List.mem_singleton, List.not_mem_nil,
          or_false] at hf
        rcases hf with rfl | rfl | rfl | rfl | rfl | rfl | rfl | rfl | rfl | rfl | rfl | rfl | rfl <;>
          first
          | rfl
          | exact absurd hname (by decide))
      (by
        intro f hf hname j a
        simp only [Business.fields, List.mem_cons, List.mem_singleton, List.not_mem_nil,
          or_false] at hf
        rcases hf with rfl | rfl | rfl | rfl | rfl | rfl | rfl | rfl | rfl | rfl | rfl | rfl | rfl <;>
          first
          | exact absurd rfl hname
          | rfl)
      ms a

theorem Business.get_Status (ms : List (String × JSON)) (a : Business) :
    (json.decMembers Business.fields ms a).1.Status
      = json.decAll (json.decString "string") (json.likeNamed Business.fields "status" ms) a.Status :=
    json.decMembers_get Business.fields "status" (fun x => x.Status) (json.decString "string")
      (by
        intro f hf hname j a
        simp only [Business.fields, List.mem_cons, List.mem_singleton, List.not_mem_nil,
          or_false] at hf
        rcases hf with rfl | rfl | rfl | rfl | rfl | rfl | rfl | rfl | rfl | rfl | rfl | rfl | rfl <;>
          first
          | rfl
          | exact absurd hname (by decide))
      (by
        intro f hf hname j a
        simp only [Business.fields, List.mem_cons, List.mem_singleton, List.not_mem_nil,
          or_false] at hf
        rcases hf with rfl | rfl | rfl | rfl | rfl | rfl | rfl | rfl | rfl | rfl | rfl | rfl | rfl <;>
          first
          | exact absurd rfl hname
          | rfl)
      ms a

theorem Business.get_CreatedDate (ms : List (String × JSON)) (a : Business) :
    (json.decMembers Business.fields ms a).1.CreatedDate
      = json.decAll (json.decInt "int64") (json.likeNamed Business.fields "createdDate" ms) a.CreatedDate :=
    json.decMembers_get Business.fields "createdDate" (fun x => x.CreatedDate) (json.decInt "int64")
      (by
        intro f hf hname j a
        simp only [Business.fields, List.mem_cons, List.mem_singleton, List.not_mem_nil,
          or_false] at hf
        rcases hf with rfl | rfl | rfl | rfl | rfl | rfl | rfl | rfl | rfl | rfl | rfl | rfl | rfl <;>
          first
          | rfl
          | exact absurd hname (by decide))
      (by
        intro f hf hname j a
        simp only [Business.fields, List.mem_cons, List.mem_singleton, List.not_mem_nil,
          or_false] at hf
        rcases hf with rfl | rfl | rfl | rfl | rfl | rfl | rfl | rfl | rfl | rfl | rfl | rfl | rfl <;>
          first
          | exact absurd rfl hname
          | rfl)
      ms a

theorem Business.get_ApprovalDate (ms : List (String × JSON)) (a : Business) :
    (json.decMembers Business.fields ms a).1.ApprovalDate
      = json.decAll (json.decInt "int64") (json.likeNamed Business.fields "approvalDate" ms) a.ApprovalDate :=
    json.decMembers_get Business.fields "approvalDate" (fun x => x.ApprovalDate) (json.decInt "int64")
      (by
        intro f hf hname j a
        simp only [Business.fields, List.mem_cons, List.mem_singleton, List.not_mem_nil,
          or_false] at hf
        rcases hf with rfl | rfl | rfl | rfl | rfl | rfl | rfl | rfl | rfl | rfl | rfl | rfl | rfl <;>
          first
          | rfl
          | exact absurd hname (by decide))
      (by
        intro f hf hname j a
        simp only [Business.fields, List.mem_cons, List.mem_singleton, List.not_mem_nil,
          or_false] at hf
        rcases hf with rfl | rfl | rfl | rfl | rfl | rfl | rfl | rfl | rfl | rfl | rfl | rfl | rfl <;>
          first
          | exact absurd rfl hname
          | rfl)
      ms a

theorem Business.get_ApprovalStatus (ms : List (String × JSON)) (a : Business) :
    (json.decMembers Business.fields ms a).1.ApprovalStatus
      = json.decAll (json.decString "string") (json.likeNamed Business.fields "approvalStatus" ms) a.ApprovalStatus :=
    json.decMembers_get Business.fields "approvalStatus" (fun x => x.ApprovalStatus) (json.decString "string")
      (by
        intro f hf hname j a
        simp only [Business.fields, List.mem_cons, List.mem_singleton, List.not_mem_nil,
          or_false] at hf
        rcases hf with rfl | rfl | rfl | rfl | rfl | rfl | rfl | rfl | rfl | rfl | rfl | rfl | rfl <;>
          first
          | rfl
          | exact absurd hname (by decide))
      (by
        intro f hf hname j a
        simp only [Business.fields, List.mem_cons, List.mem_singleton, List.not_mem_nil,
          or_false] at hf
        rcases hf with rfl | rfl | rfl | rfl | rfl | rfl | rfl | rfl | rfl | rfl | rfl | rfl | rfl <;>
          first
          | exact absurd rfl hname
          | rfl)
      ms a

theorem Business.get_Balance (ms : List (String × JSON)) (a : Business) :
    (json.decMembers Business.fields ms a).1.Balance
      = json.decAll json.decFloat64 (json.likeNamed Business.fields "balance" ms) a.Balance :=
    json.decMembers_get Business.fields "balance" (fun x => x.Balance) json.decFloat64
      (by
        intro f hf hname j a
        simp only [Business.fields, List.mem_cons, List.mem_singleton, List.not_mem_nil,
          or_false] at hf
        rcases hf with rfl | rfl | rfl | rfl | rfl | rfl | rfl | rfl | rfl | rfl | rfl | rfl | rfl <;>
          first
          | rfl
          | exact absurd hname (by decide))
      (by
        intro f hf hname j a
        simp only [Business.fields, List.mem_cons, List.mem_singleton, List.not_mem_nil,
          or_false] at hf
        rcases hf with rfl | rfl | rfl | rfl | rfl | rfl | rfl | rfl | rfl | rfl | rfl | rfl | rfl <;>
          first
          | exact absurd rfl hname
          | rfl)
      ms a

theorem Business.get_TimeZone (ms : List (String × JSON)) (a : Business) :
    (json.decMembers Business.fields ms a).1.TimeZone
      = json.decAll (json.decString "string") (json.likeNamed Business.fields "timeZone" ms) a.TimeZone :=
    json.decMembers_get Business.fields "timeZone" (fun x => x.TimeZone) (json.decString "string")
      (by
        intro f hf hname j a
        simp only [Business.fields, List.mem_cons, List.mem_singleton, List.not_mem_nil,
          or_false] at hf
        rcases hf with rfl | rfl | rfl | rfl | rfl | rfl | rfl | rfl | rfl | rfl | rfl | rfl | rfl <;>
          first
          | rfl
          | exact absurd hname (by decide))
      (by
        intro f hf hname j a
        simp only [Business.fields, List.mem_cons, List.mem_singleton, List.not_mem_nil,
          or_false] at hf
        rcases hf with rfl | rfl | rfl | rfl | rfl | rfl | rfl | rfl | rfl | rfl | rfl | rfl | rfl <;>
          first
          | exact absurd rfl hname
          | rfl)
      ms a

theorem Business.get_Addresses (ms : List (String × JSON)) (a : Business) :
    (json.decMembers Business.fields ms a).1.Addresses
      = json.decAll (json.decSlice "[]bento.Address" decAddress {}) (json.likeNamed Business.fields "addresses" ms) a.Addresses :=
    json.decMembers_get Business.fields "addresses" (fun x => x.Addresses) (json.decSlice "[]bento.Address" decAddress {})
      (by
        intro f hf hname j a
        simp only [Business.fields, List.mem_cons, List.mem_singleton, List.not_mem_nil,
          or_false] at hf
        rcases hf with rfl | rfl | rfl | rfl | rfl | rfl | rfl | rfl | rfl | rfl | rfl | rfl | rfl <;>
          first
          | rfl
          | exact absurd hname (by decide))
      (by
        intro f hf hname j a
        simp only [Business.fields, List.mem_cons, List.mem_singleton, List.not_mem_nil,
          or_false] at hf
        rcases hf with rfl | rfl | rfl | rfl | rfl | rfl | rfl | rfl | rfl | rfl | rfl | rfl | rfl <;>
          first
          | exact absurd rfl hname
          | rfl)
      ms a

set_option exponentiation.threshold 2000 in
theorem unmarshal_sampleBusiness :
    json.Unmarshal decBusiness SampleBusiness {} = (sampleBusiness, none) := by decide!

/-- A repeated member `addresses` is decoded into the slice the earlier one
left: the first element keeps its `Id` and gets the `City`, the slice gets the
length of the later array, and the second element stays in the backing array. -/
theorem getBusiness_repeated_addresses :
    (cannedSession repeatedAddresses).GetBusiness ()
      = (.ok { Addresses := ⟨[{ Id := 1, City := "Oslo" }], [{ Id := 2 }]⟩ }, ()) := by
  have hun : json.Unmarshal decBusiness repeatedAddresses {}
      = ({ Addresses := ⟨[{ Id := 1, City := "Oslo" }], [{ Id := 2 }]⟩ }, none) := by decide
  have h : (cannedSession repeatedAddresses).requester
      (cannedSession repeatedAddresses).toSessionData "GET" "/businesses/me" .nil ()
        = (.ok repeatedAddresses, ()) := rfl
  simp only [Session.GetBusiness, h, decodeReply, hun]

set_option exponentiation.threshold 3000 in
/-- A `float64` field holds the binary64 value nearest to the literal: literals
of the same number give the same value, a literal below the smallest
subnormal gives zero, one beyond the largest finite value is refused. -/
theorem json.parseFloat64_rounds :
    json.parseFloat64 "100.99" = some ⟨false, 1029, 2602939847131791⟩ ∧
      json.parseFloat64 "1.50" = json.parseFloat64 "1.5" ∧
      json.parseFloat64 "1.5" = some ⟨false, 1023, 2251799813685248⟩ ∧
      json.parseFloat64 "0.1" = some ⟨false, 1019, 2702159776422298⟩ ∧
      json.parseFloat64 "1e-400" = some ⟨false, 0, 0⟩ ∧
      json.parseFloat64 "5e-324" = some ⟨false, 0, 1⟩ ∧
      json.parseFloat64 "-0" = some ⟨true, 0, 0⟩ ∧
      json.parseFloat64 "1e400" = none := by
  refine ⟨?_, ?_, ?_, ?_, ?_, ?_, ?_, ?_⟩ <;> decide

/-- C12, as the code has it. `GetBusiness` typed decode: when the transport
answers `GET /businesses/me` with a JSON object that decodes without error,
`GetBusiness` returns with no error the `Business` each field of which is
decoded from the like-named members of the object, the zero value when there
is none. When the decoding of the object gives an error, `GetBusiness` returns
no `Business` and that error. For the sample business of the test suite it
returns `BusinessId` 12345, `CompanyName` "My Company Inc", `NameOnCard`
"My Company", `Status` "APPROVED", `CreatedDate` 1495759408 and one address,
which has `Active` true, `AddressType` "BUSINESS_ADDRESS", `Id` 12345 and
`ZipCode` "94123". -/
theorem getBusiness_typed_decode :
    (∀ (σ : Type) (session : Session σ) (w w1 : σ) (bs : String) (ms : List (String × JSON)),
      session.requester session.toSessionData "GET" "/businesses/me" .nil w = (.ok bs, w1) →
      parse bs = some (.obj ms) →
      (json.decMembers Business.fields ms {}).2 = none →
      ∃ b, session.GetBusiness w = (.ok b, w1) ∧
        b.BusinessId = json.decAll (json.decInt "int64")
          (json.likeNamed Business.fields "businessId" ms) 0 ∧
        b.CompanyName = json.decAll (json.decString "string")
          (json.likeNamed Business.fields "companyName" ms) "" ∧
        b.NameOnCard = json.decAll (json.decString "string")
          (json.likeNamed Business.fields "nameOnCard" ms) "" ∧
        b.Phone = json.decAll (json.decString "string")
          (json.likeNamed Business.fields "phone" ms) "" ∧
        b.AccountNumber = json.decAll (json.decString "string")
          (json.likeNamed Business.fields "accountNumber" ms) "" ∧
        b.BusinessStructure = json.decAll (json.decString "string")
          (json.likeNamed Business.fields "businessStructure" ms) "" ∧
        b.Status = json.decAll (json.decString "string")
          (json.likeNamed Business.fields "status" ms) "" ∧
        b.CreatedDate = json.decAll (json.decInt "int64")
          (json.likeNamed Business.fields "createdDate" ms) 0 ∧
        b.ApprovalDate = json.decAll (json.decInt "int64")
          (json.likeNamed Business.fields "approvalDate" ms) 0 ∧
        b.ApprovalStatus = json.decAll (json.decString "string")
          (json.likeNamed Business.fields "approvalStatus" ms) "" ∧
        b.Balance = json.decAll json.decFloat64
          (json.likeNamed Business.fields "balance" ms) {} ∧
        b.TimeZone = json.decAll (json.decString "string")
          (json.likeNamed Business.fields "timeZone" ms) "" ∧
        b.Addresses = json.decAll (json.decSlice "[]bento.Address" decAddress {})
          (json.likeNamed Business.fields "addresses" ms) {}) ∧
      (∀ (σ : Type) (session : Session σ) (w w1 : σ) (bs : String) (ms : List (String × JSON))
        (err : json.Error),
        session.requester session.toSessionData "GET" "/businesses/me" .nil w = (.ok bs, w1) →
        parse bs = some (.obj ms) →
        (json.decMembers Business.fields ms {}).2 = some err →
        session.GetBusiness w = (.error (.json err), w1)) ∧
      (∀ (β : Type) (d : json.Dec β) (x : β), json.decAll d [] x = x) ∧
      (∀ (β : Type) (d : json.Dec β) (x : β) (kv : String × JSON),
        json.decAll d [kv] x = (d kv.2 x).1) ∧
      testSession.GetBusiness {} = (.ok sampleBusiness, {}) ∧
      sampleBusiness.BusinessId = 12345 ∧
      sampleBusiness.CompanyName = "My Company Inc" ∧
      sampleBusiness.NameOnCard = "My Company" ∧
      sampleBusiness.Status = "APPROVED" ∧
      sampleBusiness.CreatedDate = 1495759408 ∧
      sampleBusiness.Addresses.elems.length = 1 ∧
      sampleBusiness.Addresses.elems.map (fun a => (a.Active, a.AddressType, a.Id, a.ZipCode))
        = [(true, "BUSINESS_ADDRESS", 12345, "94123")] := by
  refine ⟨?_, ?_, fun _ _ _ => rfl, fun _ _ _ _ => rfl, ?_, rfl, rfl, rfl, rfl, rfl, rfl, rfl⟩
  · intro σ session w w1 bs ms h hp hdec
    refine ⟨(json.decMembers Business.fields ms {}).1, ?_, Business.get_BusinessId ms {}, Business.get_CompanyName ms {}, Business.get_NameOnCard ms {}, Business.get_Phone ms {}, Business.get_AccountNumber ms {}, Business.get_BusinessStructure ms {}, Business.get_Status ms {}, Business.get_CreatedDate ms {}, Business.get_ApprovalDate ms {}, Business.get_ApprovalStatus ms {}, Business.get_Balance ms {}, Business.get_TimeZone ms {}, Business.get_Addresses ms {}⟩
    have hun : json.Unmarshal decBusiness bs {}
        = ((json.decMembers Business.fields ms {}).1, none) := by
      simp only [json.Unmarshal, hp, decBusiness, json.decStruct]
      exact Prod.ext rfl hdec
    simp only [Session.GetBusiness, h, decodeReply, hun]
  · intro σ session w w1 bs ms err h hp hdec
    have hun : json.Unmarshal decBusiness bs {}
        = ((json.decMembers Business.fields ms {}).1, some err) := by
      simp only [json.Unmarshal, hp, decBusiness, json.decStruct]
      exact Prod.ext rfl hdec
    simp only [Session.GetBusiness, h, decodeReply, hun]
  · have h : testSession.requester testSession.toSessionData "GET" "/businesses/me" .nil {}
        = (.ok SampleBusiness, {}) := rfl
    simp only [Session.GetBusiness, h, decodeReply, unmarshal_sampleBusiness]

theorem getBusiness_typed_decode_witness :
    (cannedSession smallBusiness).requester (cannedSession smallBusiness).toSessionData "GET"
        "/businesses/me" .nil () = (.ok smallBusiness, ()) ∧
      parse smallBusiness
        = some (.obj [("businessId", .num "12345"), ("companyName", .str "My Company Inc")]) ∧
      (json.decMembers Business.fields
        [("businessId", .num "12345"), ("companyName", .str "My Company Inc")] {}).2 = none ∧
      (∃ b, (cannedSession smallBusiness).GetBusiness () = (.ok b, ()) ∧
        b.BusinessId = 12345 ∧ b.CompanyName = "My Company Inc" ∧ b.Phone = "") ∧
      (cannedSession mistypedAddresses).requester (cannedSession mistypedAddresses).toSessionData
        "GET" "/businesses/me" .nil () = (.ok mistypedAddresses, ()) ∧
      parse mistypedAddresses
        = some (.obj [("companyName", .str "My Company Inc"), ("addresses", .str "none")]) ∧
      (json.decMembers Business.fields
        [("companyName", .str "My Company Inc"), ("addresses", .str "none")] {}).2
          = some (.type "string" "[]bento.Address") ∧
      (cannedSession mistypedAddresses).GetBusiness ()
        = (.error (.json (.type "string" "[]bento.Address")), ()) := by
  obtain ⟨b, hget, hid, hname, _, hphone, _⟩ :=
    getBusiness_typed_decode.1 Unit (cannedSession smallBusiness) () () smallBusiness
      [("businessId", .num "12345"), ("companyName", .str "My Company Inc")] rfl rfl
      (by decide)
  exact ⟨rfl, rfl, by decide, ⟨b, hget, hid.trans (by decide), hname.trans (by decide),
    hphone.trans (by decide)⟩, rfl, rfl, by decide,
    getBusiness_typed_decode.2.1 Unit (cannedSession mistypedAddresses) () () mistypedAddresses
      [("companyName", .str "My Company Inc"), ("addresses", .str "none")]
      (.type "string" "[]bento.Address") rfl rfl (by decide)⟩

/-- C12 as stated fails: this reply is a JSON object, and `GetBusiness` returns
no `Business` and the error of the decoder, the member `businessId` being a
string. -/
theorem getBusiness_rejects_mistyped_member :
    parse mistypedBusiness = some (.obj [("businessId", .str "12345")]) ∧
      (cannedSession mistypedBusiness).GetBusiness ()
        = (.error (.json (.type "string" "int64")), ()) :=
  ⟨rfl, rfl⟩

/-! ## Failures of the transport -/

/-- C13. Transport failures propagate: when the transport of a session answers
every call with the error `e`, every resource operation of the session and of
its cards returns no record and exactly the error `e`, the world being as one
call of the transport leaves it; and the calls the operation makes are exactly
one, the request of the operation. -/
theorem transport_failure_propagates {σ : Type} (session : Session σ) (e : GoError)
    (hfail : ∀ method endpoint args w,
      (session.requester session.toSessionData method endpoint args w).1 = .error e)
    (card : Card σ) (hc : card.session = some session) (cardId : Int)
    (cardType aliasName lastFour : String) (address : Option Address) (w : σ) :
      (session.GetBusiness w =
          (.error e, (session.requester session.toSessionData "GET" "/businesses/me" .nil w).2) ∧
        (session.traced.GetBusiness (w, [])).2.2 = [⟨"GET", "/businesses/me", .nil⟩]) ∧
      (session.GetCards w =
          (.error e, (session.requester session.toSessionData "GET" "/cards" .nil w).2) ∧
        (session.traced.GetCards (w, [])).2.2 = [⟨"GET", "/cards", .nil⟩]) ∧
      (session.GetCard cardId w =
          (.error e, (session.requester session.toSessionData "GET" ("/cards/" ++ toString cardId) .nil w).2) ∧
        (session.traced.GetCard cardId (w, [])).2.2 = [⟨"GET", ("/cards/" ++ toString cardId), .nil⟩]) ∧
      (session.NewCard cardType aliasName w =
          (.error e, (session.requester session.toSessionData "POST" "/cards" (newCardArgs cardType aliasName) w).2) ∧
        (session.traced.NewCard cardType aliasName (w, [])).2.2 = [⟨"POST", "/cards", (newCardArgs cardType aliasName)⟩]) ∧
      (session.GetTransactions w =
          (.error e, (session.requester session.toSessionData "GET" "/transactions" .nil w).2) ∧
        (session.traced.GetTransactions (w, [])).2.2 = [⟨"GET", "/transactions", .nil⟩]) ∧
      (card.Put w = some ⟨.error e, card,
            (session.requester session.toSessionData "PUT" ("/cards/" ++ toString card.CardId) (.card card.toCardFields) w).2⟩ ∧
        (card.traced.Put (w, [])).map (fun r => r.world.2) = some [⟨"PUT", ("/cards/" ++ toString card.CardId), (.card card.toCardFields)⟩]) ∧
      (card.Delete w = some ⟨.error e, card,
            (session.requester session.toSessionData "DELETE" ("/cards/" ++ toString card.CardId) .nil w).2⟩ ∧
        (card.traced.Delete (w, [])).map (fun r => r.world.2) = some [⟨"DELETE", ("/cards/" ++ toString card.CardId), .nil⟩]) ∧
      (card.Activate lastFour w = some ⟨.error e, card.setLastFour lastFour,
            (session.requester session.toSessionData "POST" ("/cards/" ++ toString card.CardId ++ "/activation") (.card (card.setLastFour lastFour).toCardFields) w).2⟩ ∧
        (card.traced.Activate lastFour (w, [])).map (fun r => r.world.2) = some [⟨"POST", ("/cards/" ++ toString card.CardId ++ "/activation"), (.card (card.setLastFour lastFour).toCardFields)⟩]) ∧
      (card.Reissue w = some ⟨.error e, card,
            (session.requester session.toSessionData "POST" ("/cards/" ++ toString card.CardId ++ "/reissue") .nil w).2⟩ ∧
        (card.traced.Reissue (w, [])).map (fun r => r.world.2) = some [⟨"POST", ("/cards/" ++ toString card.CardId ++ "/reissue"), .nil⟩]) ∧
      (card.TurnOn w = some ⟨.error e, card.setStatus "TURNED_ON",
            (session.requester session.toSessionData "PUT" ("/cards/" ++ toString card.CardId) (.card (card.setStatus "TURNED_ON").toCardFields) w).2⟩ ∧
        (card.traced.TurnOn (w, [])).map (fun r => r.world.2) = some [⟨"PUT", ("/cards/" ++ toString card.CardId), (.card (card.setStatus "TURNED_ON").toCardFields)⟩]) ∧
      (card.TurnOff w = some ⟨.error e, card.setStatus "TURNED_OFF",
            (session.requester session.toSessionData "PUT" ("/cards/" ++ toString card.CardId) (.card (card.setStatus "TURNED_OFF").toCardFields) w).2⟩ ∧
        (card.traced.TurnOff (w, [])).map (fun r => r.world.2) = some [⟨"PUT", ("/cards/" ++ toString card.CardId), (.card (card.setStatus "TURNED_OFF").toCardFields)⟩]) ∧
      (card.GetPanAndCvv w = some ⟨.error e, card,
            (session.requester session.toSessionData "GET" ("/cards/" ++ toString card.CardId ++ "/pan") .nil w).2⟩ ∧
        (card.traced.GetPanAndCvv (w, [])).map (fun r => r.world.2) = some [⟨"GET", ("/cards/" ++ toString card.CardId ++ "/pan"), .nil⟩]) ∧
      (card.GetBillingAddress w = some ⟨.error e, card,
            (session.requester session.toSessionData "GET" ("/cards/" ++ toString card.CardId ++ "/billingAddress") .nil w).2⟩ ∧
        (card.traced.GetBillingAddress (w, [])).map (fun r => r.world.2) = some [⟨"GET", ("/cards/" ++ toString card.CardId ++ "/billingAddress"), .nil⟩]) ∧
      (card.SetBillingAddress address w = some ⟨.error e, card,
            (session.requester session.toSessionData "POST" ("/cards/" ++ toString card.CardId ++ "/billingAddress") (.address address) w).2⟩ ∧
        (card.traced.SetBillingAddress address (w, [])).map (fun r => r.world.2) = some [⟨"POST", ("/cards/" ++ toString card.CardId ++ "/billingAddress"), (.address address)⟩]) ∧
      (card.UpdateBillingAddress address w = some ⟨.error e, card,
            (session.requester session.toSessionData "PUT" ("/cards/" ++ toString card.CardId ++ "/billingAddress") (.address address) w).2⟩ ∧
        (card.traced.UpdateBillingAddress address (w, [])).map (fun r => r.world.2) = some [⟨"PUT", ("/cards/" ++ toString card.CardId ++ "/billingAddress"), (.address address)⟩]) := by
  have fails : ∀ method endpoint args,
      session.requester session.toSessionData method endpoint args w
        = (.error e, (session.requester session.toSessionData method endpoint args w).2) :=
    fun method endpoint args => Prod.ext (hfail method endpoint args w) rfl
  have tfails : ∀ method endpoint args,
      session.traced.requester session.traced.toSessionData method endpoint args (w, [])
        = (.error e, ((session.requester session.toSessionData method endpoint args w).2,
            [⟨method, endpoint, args⟩])) :=
    fun method endpoint args => Prod.ext (hfail method endpoint args w) rfl
  have ht : card.traced.session = some session.traced := by
    simp [Card.traced, hc]
  refine ⟨?_, ?_, ?_, ?_, ?_, ?_, ?_, ?_, ?_, ?_, ?_, ?_, ?_, ?_, ?_⟩
  · have h := hfail "GET" "/businesses/me" .nil w
    refine ⟨?_, ?_⟩
    · simp only [Session.GetBusiness]
      generalize session.requester session.toSessionData "GET" "/businesses/me" .nil w = x at h ⊢
      obtain ⟨r, w1⟩ := x
      cases h
      rfl
    · simp only [Session.GetBusiness, Session.traced, Requester.traced]
      generalize session.requester session.toSessionData "GET" "/businesses/me" .nil w = x at h ⊢
      obtain ⟨r, w1⟩ := x
      cases h
      rfl
  · have h := hfail "GET" "/cards" .nil w
    refine ⟨?_, ?_⟩
    · simp only [Session.GetCards]
      generalize session.requester session.toSessionData "GET" "/cards" .nil w = x at h ⊢
      obtain ⟨r, w1⟩ := x
      cases h
      rfl
    · simp only [Session.GetCards, Session.traced, Requester.traced]
      generalize session.requester session.toSessionData "GET" "/cards" .nil w = x at h ⊢
      obtain ⟨r, w1⟩ := x
      cases h
      rfl
  · have h := hfail "GET" ("/cards/" ++ toString cardId) .nil w
    refine ⟨?_, ?_⟩
    · simp only [Session.GetCard]
      generalize session.requester session.toSessionData "GET" ("/cards/" ++ toString cardId) .nil w = x at h ⊢
      obtain ⟨r, w1⟩ := x
      cases h
      rfl
    · simp only [Session.GetCard, Session.traced, Requester.traced]
      generalize session.requester session.toSessionData "GET" ("/cards/" ++ toString cardId) .nil w = x at h ⊢
      obtain ⟨r, w1⟩ := x
      cases h
      rfl
  · have h := hfail "POST" "/cards" (newCardArgs cardType aliasName) w
    refine ⟨?_, ?_⟩
    · simp only [Session.NewCard]
      generalize session.requester session.toSessionData "POST" "/cards" (newCardArgs cardType aliasName) w = x at h ⊢
      obtain ⟨r, w1⟩ := x
      cases h
      rfl
    · simp only [Session.NewCard, Session.traced, Requester.traced]
      generalize session.requester session.toSessionData "POST" "/cards" (newCardArgs cardType aliasName) w = x at h ⊢
      obtain ⟨r, w1⟩ := x
      cases h
      rfl
  · have h := hfail "GET" "/transactions" .nil w
    refine ⟨?_, ?_⟩
    · simp only [Session.GetTransactions]
      generalize session.requester session.toSessionData "GET" "/transactions" .nil w = x at h ⊢
      obtain ⟨r, w1⟩ := x
      cases h
      rfl
    · simp only [Session.GetTransactions, Session.traced, Requester.traced]
      generalize session.requester session.toSessionData "GET" "/transactions" .nil w = x at h ⊢
      obtain ⟨r, w1⟩ := x
      cases h
      rfl
  · exact ⟨Card.request_error (card) session hc _ _ _ w _ e (fails "PUT" ("/cards/" ++ toString card.CardId) (.card card.toCardFields)),
      congrArg (Option.map fun r => r.world.2)
        (Card.request_error (card.traced) session.traced ht "PUT" ("/cards/" ++ toString card.CardId) (.card card.toCardFields) (w, []) _ e
          (tfails "PUT" ("/cards/" ++ toString card.CardId) (.card card.toCardFields)))⟩
  · exact ⟨Card.request_error (card) session hc _ _ _ w _ e (fails "DELETE" ("/cards/" ++ toString card.CardId) .nil),
      congrArg (Option.map fun r => r.world.2)
        (Card.request_error (card.traced) session.traced ht "DELETE" ("/cards/" ++ toString card.CardId) .nil (w, []) _ e
          (tfails "DELETE" ("/cards/" ++ toString card.CardId) .nil))⟩
  · exact ⟨Card.request_error (card.setLastFour lastFour) session hc _ _ _ w _ e (fails "POST" ("/cards/" ++ toString card.CardId ++ "/activation") (.card (card.setLastFour lastFour).toCardFields)),
      congrArg (Option.map fun r => r.world.2)
        (Card.request_error (card.traced.setLastFour lastFour) session.traced ht "POST" ("/cards/" ++ toString card.CardId ++ "/activation") (.card (card.setLastFour lastFour).toCardFields) (w, []) _ e
          (tfails "POST" ("/cards/" ++ toString card.CardId ++ "/activation") (.card (card.setLastFour lastFour).toCardFields)))⟩
  · exact ⟨Card.request_error (card) session hc _ _ _ w _ e (fails "POST" ("/cards/" ++ toString card.CardId ++ "/reissue") .nil),
      congrArg (Option.map fun r => r.world.2)
        (Card.request_error (card.traced) session.traced ht "POST" ("/cards/" ++ toString card.CardId ++ "/reissue") .nil (w, []) _ e
          (tfails "POST" ("/cards/" ++ toString card.CardId ++ "/reissue") .nil))⟩
  · have hput : (card.setStatus STATUS_TURNED_ON).Put w = _ :=
      Card.request_error (card.setStatus STATUS_TURNED_ON) session hc _ _ _ w _ e
        (fails "PUT" ("/cards/" ++ toString card.CardId) (.card (card.setStatus "TURNED_ON").toCardFields))
    have htput : (card.traced.setStatus STATUS_TURNED_ON).Put (w, []) = _ :=
      Card.request_error (card.traced.setStatus STATUS_TURNED_ON) session.traced ht "PUT"
        ("/cards/" ++ toString card.CardId) (.card (card.setStatus "TURNED_ON").toCardFields) (w, []) _ e
        (tfails "PUT" ("/cards/" ++ toString card.CardId) (.card (card.setStatus "TURNED_ON").toCardFields))
    refine ⟨?_, ?_⟩
    · simp only [Card.TurnOn, hput]
      rfl
    · simp only [Card.TurnOn, htput]
      rfl
  · have hput : (card.setStatus STATUS_TURNED_OFF).Put w = _ :=
      Card.request_error (card.setStatus STATUS_TURNED_OFF) session hc _ _ _ w _ e
        (fails "PUT" ("/cards/" ++ toString card.CardId) (.card (card.setStatus "TURNED_OFF").toCardFields))
    have htput : (card.traced.setStatus STATUS_TURNED_OFF).Put (w, []) = _ :=
      Card.request_error (card.traced.setStatus STATUS_TURNED_OFF) session.traced ht "PUT"
        ("/cards/" ++ toString card.CardId) (.card (card.setStatus "TURNED_OFF").toCardFields) (w, []) _ e
        (tfails "PUT" ("/cards/" ++ toString card.CardId) (.card (card.setStatus "TURNED_OFF").toCardFields))
    refine ⟨?_, ?_⟩
    · simp only [Card.TurnOff, hput]
      rfl
    · simp only [Card.TurnOff, htput]
      rfl
  · exact ⟨Card.fetch_error card session hc _ _ _ _ _ w _ e (fails "GET" ("/cards/" ++ toString card.CardId ++ "/pan") .nil),
      congrArg (Option.map fun r => r.world.2)
        (Card.fetch_error card.traced session.traced ht _ _ "GET" ("/cards/" ++ toString card.CardId ++ "/pan") .nil (w, []) _ e
          (tfails "GET" ("/cards/" ++ toString card.CardId ++ "/pan") .nil))⟩
  · exact ⟨Card.fetch_error card session hc _ _ _ _ _ w _ e (fails "GET" ("/cards/" ++ toString card.CardId ++ "/billingAddress") .nil),
      congrArg (Option.map fun r => r.world.2)
        (Card.fetch_error card.traced session.traced ht _ _ "GET" ("/cards/" ++ toString card.CardId ++ "/billingAddress") .nil (w, []) _ e
          (tfails "GET" ("/cards/" ++ toString card.CardId ++ "/billingAddress") .nil))⟩
  · exact ⟨Card.fetch_error card session hc _ _ _ _ _ w _ e (fails "POST" ("/cards/" ++ toString card.CardId ++ "/billingAddress") (.address address)),
      congrArg (Option.map fun r => r.world.2)
        (Card.fetch_error card.traced session.traced ht _ _ "POST" ("/cards/" ++ toString card.CardId ++ "/billingAddress") (.address address) (w, []) _ e
          (tfails "POST" ("/cards/" ++ toString card.CardId ++ "/billingAddress") (.address address)))⟩
  · exact ⟨Card.fetch_error card session hc _ _ _ _ _ w _ e (fails "PUT" ("/cards/" ++ toString card.CardId ++ "/billingAddress") (.address address)),
      congrArg (Option.map fun r => r.world.2)
        (Card.fetch_error card.traced session.traced ht _ _ "PUT" ("/cards/" ++ toString card.CardId ++ "/billingAddress") (.address address) (w, []) _ e
          (tfails "PUT" ("/cards/" ++ toString card.CardId ++ "/billingAddress") (.address address)))⟩
theorem transport_failure_propagates_witness :
    (∀ method endpoint args w,
        (failingSession.requester failingSession.toSessionData method endpoint args w).1
          = .error (.errorString "<html>500 Error</html>")) ∧
      failingCard.session = some failingSession ∧
      failingSession.GetBusiness {} = (.error (.errorString "<html>500 Error</html>"), {}) ∧
      failingSession.GetCards {} = (.error (.errorString "<html>500 Error</html>"), {}) ∧
      (failingSession.traced.GetCards ({}, [])).2.2 = [⟨"GET", "/cards", .nil⟩] :=
  ⟨fun _ _ _ _ => rfl, rfl,
    (transport_failure_propagates failingSession (.errorString "<html>500 Error</html>")
      (fun _ _ _ _ => rfl) failingCard rfl 0 "" "" "" none {}).1.1,
    (transport_failure_propagates failingSession (.errorString "<html>500 Error</html>")
      (fun _ _ _ _ => rfl) failingCard rfl 0 "" "" "" none {}).2.1.1,
    (transport_failure_propagates failingSession (.errorString "<html>500 Error</html>")
      (fun _ _ _ _ => rfl) failingCard rfl 0 "" "" "" none {}).2.1.2⟩

/-! ## The session of a card -/

/-- A successful card request goes through the session of the card, and the
card it returns is the decoding of the reply with that session as its session. -/
theorem Card.request_through {σ : Type} (card : Card σ) (session : Session σ)
    (hc : card.session = some session) (method endpoint : String) (args : Args) (w : σ)
    (r : CardCall σ (Card σ)) (resp : Card σ)
    (h : card.request method endpoint args w = some r) (hr : r.ret = .ok resp) :
    resp.session = some session ∧
      ∃ bs c, session.requester session.toSessionData method endpoint args w = (.ok bs, r.world) ∧
        json.Unmarshal decCard bs {} = (c, none) ∧ resp = c.setSession (some session) := by
  simp only [Card.request, hc] at h
  cases hreq : session.requester session.toSessionData method endpoint args w with
  | mk r0 w1 =>
    rw [hreq] at h
    cases r0 with
    | error err =>
      simp only [decodeReply, Option.some.injEq] at h
      subst h
      cases hr
    | ok bs =>
      cases hun : json.Unmarshal (decCard : json.Dec (Card σ)) bs {} with
      | mk c err =>
        cases err with
        | some err =>
          simp only [decodeReply, hun, Option.some.injEq] at h
          subst h
          cases hr
        | none =>
          simp only [decodeReply, hun, Option.some.injEq] at h
          subst h
          simp only [Except.ok.injEq] at hr
          subst hr
          exact ⟨rfl, bs, c, rfl, hun, rfl⟩

/-- C14. Back-reference invariant: a successful `Put`, `Delete`, `Activate`,
`Reissue`, `TurnOn` or `TurnOff` on a card whose session is `session` sends its
request through `session` and returns a card, the decoding of the reply, whose
session is `session`; and the cards `GetCard`, `GetCards` and `NewCard` return
have the calling session as their session. -/
theorem back_reference_invariant {σ : Type} (session : Session σ) (card : Card σ)
    (hc : card.session = some session) (cardId : Int) (cardType aliasName lastFour : String)
    (w : σ) :
      (∀ r resp, card.Put w = some r → r.ret = .ok resp →
        resp.session = some session ∧
        ∃ bs c, session.requester session.toSessionData "PUT" ("/cards/" ++ toString card.CardId)
            (.card card.toCardFields) w = (.ok bs, r.world) ∧
          json.Unmarshal decCard bs {} = (c, none) ∧ resp = c.setSession (some session)) ∧
      (∀ r resp, card.Delete w = some r → r.ret = .ok resp →
        resp.session = some session ∧
        ∃ bs c, session.requester session.toSessionData "DELETE" ("/cards/" ++ toString card.CardId)
            .nil w = (.ok bs, r.world) ∧
          json.Unmarshal decCard bs {} = (c, none) ∧ resp = c.setSession (some session)) ∧
      (∀ r resp, card.Activate lastFour w = some r → r.ret = .ok resp →
        resp.session = some session ∧
        ∃ bs c, session.requester session.toSessionData "POST" ("/cards/" ++ toString card.CardId ++ "/activation")
            (.card (card.setLastFour lastFour).toCardFields) w = (.ok bs, r.world) ∧
          json.Unmarshal decCard bs {} = (c, none) ∧ resp = c.setSession (some session)) ∧
      (∀ r resp, card.Reissue w = some r → r.ret = .ok resp →
        resp.session = some session ∧
        ∃ bs c, session.requester session.toSessionData "POST" ("/cards/" ++ toString card.CardId ++ "/reissue")
            .nil w = (.ok bs, r.world) ∧
          json.Unmarshal decCard bs {} = (c, none) ∧ resp = c.setSession (some session)) ∧
      (∀ r resp, card.TurnOn w = some r → r.ret = .ok resp →
        resp.session = some session ∧
        ∃ bs c, session.requester session.toSessionData "PUT" ("/cards/" ++ toString card.CardId)
            (.card (card.setStatus "TURNED_ON").toCardFields) w = (.ok bs, r.world) ∧
          json.Unmarshal decCard bs {} = (c, none) ∧ resp = c.setSession (some session)) ∧
      (∀ r resp, card.TurnOff w = some r → r.ret = .ok resp →
        resp.session = some session ∧
        ∃ bs c, session.requester session.toSessionData "PUT" ("/cards/" ++ toString card.CardId)
            (.card (card.setStatus "TURNED_OFF").toCardFields) w = (.ok bs, r.world) ∧
          json.Unmarshal decCard bs {} = (c, none) ∧ resp = c.setSession (some session)) ∧
      (∀ c, (session.GetCard cardId w).1 = .ok c → c.session = some session) ∧
      (∀ cards, (session.GetCards w).1 = .ok cards → ∀ c ∈ cards, c.session = some session) ∧
      (∀ c, (session.NewCard cardType aliasName w).1 = .ok c → c.session = some session) := by
  refine ⟨?_, ?_, ?_, ?_, ?_, ?_, ?_, ?_, ?_⟩
  · intro r resp h hr
    exact Card.request_through card session hc _ _ _ w r resp h hr
  · intro r resp h hr
    exact Card.request_through card session hc _ _ _ w r resp h hr
  · intro r resp h hr
    exact Card.request_through (card.setLastFour lastFour) session hc _ _ _ w r resp h hr
  · intro r resp h hr
    exact Card.request_through card session hc _ _ _ w r resp h hr
  · intro r resp h hr
    simp only [Card.TurnOn] at h
    cases hput : (card.setStatus STATUS_TURNED_ON).Put w with
    | none => simp [hput] at h
    | some p =>
      obtain ⟨ret, receiver, w1⟩ := p
      rw [hput] at h
      cases ret with
      | error err =>
        simp only [Option.some.injEq] at h
        subst h
        cases hr
      | ok resp1 =>
        simp only at h
        split at h
        · simp only [Option.some.injEq] at h
          subst h
          cases hr
        · simp only [Option.some.injEq] at h
          subst h
          simp only [Except.ok.injEq] at hr
          subst hr
          exact Card.request_through (card.setStatus STATUS_TURNED_ON) session hc _ _ _ w _
            resp1 hput rfl
  · intro r resp h hr
    simp only [Card.TurnOff] at h
    cases hput : (card.setStatus STATUS_TURNED_OFF).Put w with
    | none => simp [hput] at h
    | some p =>
      obtain ⟨ret, receiver, w1⟩ := p
      rw [hput] at h
      cases ret with
      | error err =>
        simp only [Option.some.injEq] at h
        subst h
        cases hr
      | ok resp1 =>
        simp only at h
        split at h
        · simp only [Option.some.injEq] at h
          subst h
          cases hr
        · simp only [Option.some.injEq] at h
          subst h
          simp only [Except.ok.injEq] at hr
          subst hr
          exact Card.request_through (card.setStatus STATUS_TURNED_OFF) session hc _ _ _ w _
            resp1 hput rfl
  · intro c h
    simp only [Session.GetCard] at h
    split at h
    · cases h
    · simp only [Except.ok.injEq] at h
      subst h
      rfl
  · intro cards h c hmem
    simp only [Session.GetCards] at h
    split at h
    · cases h
    · simp only [Except.ok.injEq] at h
      subst h
      obtain ⟨c0, _, rfl⟩ := List.mem_map.mp hmem
      rfl
  · intro c h
    simp only [Session.NewCard] at h
    split at h
    · cases h
    · simp only [Except.ok.injEq] at h
      subst h
      rfl

theorem unmarshal_sampleCard_card {σ : Type} :
    json.Unmarshal decCard SampleCard {} = ((⟨sampleCardFields, none⟩ : Card σ), none) := by
  rw [unmarshal_card]
  exact congrArg (fun r => ((⟨r.1, none⟩ : Card σ), r.2)) unmarshal_sampleCard

theorem testCard_put :
    testCard.Put {} = some ⟨.ok ⟨sampleCardFields, some testSession⟩, testCard, {}⟩ :=
  Card.request_ok testCard testSession rfl "PUT" "/cards/12345" (.card testCard.toCardFields) {} {}
    SampleCard ⟨sampleCardFields, none⟩ rfl unmarshal_sampleCard_card

theorem back_reference_invariant_witness :
    testCard.session = some testSession ∧
      testCard.Put {} = some ⟨.ok ⟨sampleCardFields, some testSession⟩, testCard, {}⟩ ∧
      (⟨sampleCardFields, some testSession⟩ : Card TestSession).session = some testSession ∧
      ∃ bs c, testSession.requester testSession.toSessionData "PUT"
          ("/cards/" ++ toString testCard.CardId) (.card testCard.toCardFields) {} = (.ok bs, {}) ∧
        json.Unmarshal decCard bs {} = (c, none) ∧
        (⟨sampleCardFields, some testSession⟩ : Card TestSession) = c.setSession (some testSession) :=
  ⟨rfl, testCard_put,
    ((back_reference_invariant testSession testCard rfl 12345 "" "" "" {}).1
      ⟨.ok ⟨sampleCardFields, some testSession⟩, testCard, {}⟩
      ⟨sampleCardFields, some testSession⟩ testCard_put rfl).1,
    ((back_reference_invariant testSession testCard rfl 12345 "" "" "" {}).1
      ⟨.ok ⟨sampleCardFields, some testSession⟩, testCard, {}⟩
      ⟨sampleCardFields, some testSession⟩ testCard_put rfl).2⟩

end Bento
